import Mathlib

/-!
# Three.js-learning: the scene runtime pattern

A verification development for the tutorial scenes under `src/`: the viewport
(resize) handlers, the redraw loop, the fullscreen toggle, the debug panel, the
resource completions, the per-frame animation values, the cursor tracking, the
damped orbit controller the scenes drive, the shadow configuration and the
random mesh.

Each JavaScript function is embedded as a function on an explicit state record.
Calls into the external libraries (three.js, the browser) are recorded in a call
log, in the order in which the source issues them.
-/

namespace ThreeJsLearning

/-! ## Numbers -/

/-- The value of a JavaScript division of two non-negative integers (window
dimensions): the exact quotient when the divisor is not zero, `Infinity` for
`n / 0` with `n > 0`, and `NaN` for `0 / 0`. The IEEE double that JavaScript
stores is the rounding of the exact quotient, hence a function of it. -/
inductive JsNumber where
  | finite (q : ℚ)
  | infinity
  | nan
  deriving DecidableEq

/-- The JavaScript expression `a / b` for two non-negative integers. -/
def jsDiv (a b : Nat) : JsNumber :=
  if b = 0 then (if a = 0 then JsNumber.nan else JsNumber.infinity)
  else JsNumber.finite ((a : ℚ) / (b : ℚ))

/-! ## The scenes -/

/-- The eleven scenes of the repository, one per directory of `src/`. -/
inductive SceneId where
  | animations
  | cameras
  | debugUi
  | fullscreenAndResizing
  | geometries
  | lights
  | materials
  | shadows
  | text3D
  | textures
  | transformObjects
  deriving DecidableEq

/-! ## State -/

/-- The part of the browser `window` the scenes read. -/
structure Window where
  innerWidth : Nat
  innerHeight : Nat
  devicePixelRatio : ℚ
  deriving DecidableEq

/-- The `sizes` record created in every `init`. -/
structure Sizes where
  width : Nat
  height : Nat
  deriving DecidableEq

/-- The perspective camera: its `aspect` property, and the aspect from which its
projection matrix was last computed (`updateProjectionMatrix` reads `aspect`). -/
structure Camera where
  aspect : JsNumber
  projectionAspect : JsNumber
  deriving DecidableEq

/-- The WebGL renderer: the size given to `setSize` and the pixel ratio given to
`setPixelRatio`. -/
structure Renderer where
  width : Nat
  height : Nat
  pixelRatio : ℚ
  deriving DecidableEq

/-- The statements of a tick body. `animate target` is one per-frame animation
write, named by the property it assigns. -/
inductive Op where
  | getElapsedTime
  | animate (target : String)
  | controlsUpdate
  | render
  | requestAnimationFrame
  deriving DecidableEq

/-- An entry of the call log. `render` records what the render call sees: the
aspect of the camera projection and the renderer target size. `threw op` records
that statement `op` raised an exception, which ended the running callback. -/
inductive Call where
  | setAspect (a : JsNumber)
  | updateProjectionMatrix
  | setSize (width height : Nat)
  | setPixelRatio (r : ℚ)
  | getElapsedTime
  | animate (target : String)
  | controlsUpdate
  | render (projectionAspect : JsNumber) (width height : Nat)
  | requestAnimationFrame
  | threw (op : Op)
  deriving DecidableEq

/-- The state of one running scene. `pendingFrames` counts the callbacks
registered with `requestAnimationFrame` and not yet run. -/
structure State where
  window : Window
  sizes : Sizes
  camera : Camera
  renderer : Renderer
  pendingFrames : Nat
  log : List Call

/-! ## Camera and renderer primitives -/

/-- The assignment `camera.aspect = a`. -/
def setAspect (a : JsNumber) (s : State) : State :=
  { s with camera := { s.camera with aspect := a }, log := s.log ++ [Call.setAspect a] }

/-- The call `camera.updateProjectionMatrix()`: the projection is recomputed
from the current `aspect`. -/
def updateProjectionMatrix (s : State) : State :=
  { s with camera := { s.camera with projectionAspect := s.camera.aspect },
           log := s.log ++ [Call.updateProjectionMatrix] }

/-- The call `renderer.setSize(w, h)`. -/
def setSize (w h : Nat) (s : State) : State :=
  { s with renderer := { s.renderer with width := w, height := h },
           log := s.log ++ [Call.setSize w h] }

/-- The call `renderer.setPixelRatio(r)`. -/
def setPixelRatio (r : ℚ) (s : State) : State :=
  { s with renderer := { s.renderer with pixelRatio := r },
           log := s.log ++ [Call.setPixelRatio r] }

/-- The two assignments `sizes.width = window.innerWidth` and
`sizes.height = window.innerHeight` that open every resize handler. -/
def readWindowSize (s : State) : State :=
  { s with sizes := { width := s.window.innerWidth, height := s.window.innerHeight } }

/-- The function `createCamera(sizes)`, the same in every scene as far as the
projection goes: `new THREE.PerspectiveCamera(75, sizes.width / sizes.height, 0.1, 100)`.
The constructor computes the projection matrix from the aspect it is given. -/
def createCamera (sizes : Sizes) : Camera :=
  { aspect := jsDiv sizes.width sizes.height,
    projectionAspect := jsDiv sizes.width sizes.height }

/-- The function `createRenderer(canvas, sizes)` of every scene but
transform-objects: `setSize(sizes.width, sizes.height)` followed by
`setPixelRatio(Math.min(window.devicePixelRatio, 2))`. -/
def createRenderer (s : State) : State :=
  setPixelRatio (min s.window.devicePixelRatio 2) (setSize s.sizes.width s.sizes.height s)

/-- The function `createRenderer` of transform-objects (lines 76-80): only
`setSize`. -/
def TransformObjects.createRenderer (s : State) : State :=
  setSize s.sizes.width s.sizes.height s

/-! ## Resize handlers -/

/-- The function `onWindowResize(camera, renderer, sizes)` of animations (lines
67-75) and cameras (lines 91-99), which have the same text. -/
def onWindowResize (s : State) : State :=
  let s := readWindowSize s
  let s := setAspect (jsDiv s.sizes.width s.sizes.height) s
  let s := updateProjectionMatrix s
  setSize s.sizes.width s.sizes.height s

/-- The function `onWindowResize` of transform-objects (lines 85-94). -/
def TransformObjects.onWindowResize (s : State) : State :=
  let s := readWindowSize s
  let s := setAspect (jsDiv s.sizes.width s.sizes.height) s
  let s := updateProjectionMatrix s
  let s := setSize s.sizes.width s.sizes.height s
  setPixelRatio (min s.window.devicePixelRatio 2) s

/-- The resize listener registered by `setupEventListeners` in debug-ui (lines
115-124), fullscreen-and-resizing (80-89), geometries (89-98), lights (159-168),
materials (169-178), shadows (196-205), text3D (149-158) and textures (120-129),
which all have the same text. -/
def setupEventListeners.resize (s : State) : State :=
  let s := readWindowSize s
  let s := setAspect (jsDiv s.sizes.width s.sizes.height) s
  let s := updateProjectionMatrix s
  let s := setSize s.sizes.width s.sizes.height s
  setPixelRatio (min s.window.devicePixelRatio 2) s

/-- The resize handler each scene registers on `window`. -/
def resizeHandler : SceneId → State → State
  | SceneId.animations => onWindowResize
  | SceneId.cameras => onWindowResize
  | SceneId.transformObjects => TransformObjects.onWindowResize
  | SceneId.debugUi => setupEventListeners.resize
  | SceneId.fullscreenAndResizing => setupEventListeners.resize
  | SceneId.geometries => setupEventListeners.resize
  | SceneId.lights => setupEventListeners.resize
  | SceneId.materials => setupEventListeners.resize
  | SceneId.shadows => setupEventListeners.resize
  | SceneId.text3D => setupEventListeners.resize
  | SceneId.textures => setupEventListeners.resize

/-- A resize event: the browser has given the window a new inner size and
device pixel ratio, and runs the scene's handler. -/
def resizeEvent (sc : SceneId) (w : Window) (s : State) : State :=
  resizeHandler sc { s with window := w }

/-! ## The redraw loop -/

/-- The log entry of a tick statement run in state `s`. -/
def callOf (s : State) : Op → Call
  | Op.getElapsedTime => Call.getElapsedTime
  | Op.animate target => Call.animate target
  | Op.controlsUpdate => Call.controlsUpdate
  | Op.render => Call.render s.camera.projectionAspect s.renderer.width s.renderer.height
  | Op.requestAnimationFrame => Call.requestAnimationFrame

/-- The effect of one tick statement that completes. The clock sample, the
animation writes and the controller update touch neither `sizes`, the camera
projection parameters nor the renderer; they are recorded in the log only.
`requestAnimationFrame(tick)` registers one more callback. -/
def exec (op : Op) (s : State) : State :=
  match op with
  | Op.requestAnimationFrame =>
      { s with pendingFrames := s.pendingFrames + 1, log := s.log ++ [callOf s op] }
  | _ => { s with log := s.log ++ [callOf s op] }

/-- Runs statements in order. No scene has a `try`/`catch`: when a statement
throws (`throws op`), the exception leaves the callback and the statements after
it are not run. -/
def runOps (throws : Op → Bool) : List Op → State → State
  | [], s => s
  | op :: rest, s =>
      if throws op then { s with log := s.log ++ [Call.threw op] }
      else runOps throws rest (exec op s)

/-- The body of `tick` of animations (lines 88-91): no clock, no controls. -/
def Animations.tickBody : List Op :=
  [Op.render, Op.requestAnimationFrame]

/-- The body of `tick` of cameras (lines 107-118), debug-ui (133-144),
fullscreen-and-resizing (107-118), geometries (107-118), text3D (167-178) and
textures (138-149), which all have the same text. -/
def Controls.tickBody : List Op :=
  [Op.getElapsedTime, Op.controlsUpdate, Op.render, Op.requestAnimationFrame]

/-- The body of `tick` of lights (lines 177-197). -/
def Lights.tickBody : List Op :=
  [Op.getElapsedTime,
   Op.animate "sphere.rotation.y", Op.animate "cube.rotation.y", Op.animate "torus.rotation.y",
   Op.animate "sphere.rotation.x", Op.animate "cube.rotation.x", Op.animate "torus.rotation.x",
   Op.controlsUpdate, Op.render, Op.requestAnimationFrame]

/-- The meshes returned by `createMeshes` of materials (line 121). -/
def Materials.meshes : List String := ["sphere", "plane", "torus"]

/-- The body of `tick` of materials (lines 187-203): `meshes.forEach` writes
`rotation.y` then `rotation.x` of each mesh. -/
def Materials.tickBody : List Op :=
  [Op.getElapsedTime] ++
  Materials.meshes.flatMap (fun m => [Op.animate (m ++ ".rotation.y"), Op.animate (m ++ ".rotation.x")]) ++
  [Op.controlsUpdate, Op.render, Op.requestAnimationFrame]

/-- The body of `tick` of shadows (lines 214-235). -/
def Shadows.tickBody : List Op :=
  [Op.getElapsedTime,
   Op.animate "sphere.position.x", Op.animate "sphere.position.z", Op.animate "sphere.position.y",
   Op.animate "sphereShadow.position.x", Op.animate "sphereShadow.position.z",
   Op.animate "sphereShadow.material.opacity",
   Op.controlsUpdate, Op.render, Op.requestAnimationFrame]

/-- The body of the frame callback of each scene. transform-objects defines no
`tick` and never calls `requestAnimationFrame`. -/
def tickBody : SceneId → List Op
  | SceneId.animations => Animations.tickBody
  | SceneId.cameras => Controls.tickBody
  | SceneId.debugUi => Controls.tickBody
  | SceneId.fullscreenAndResizing => Controls.tickBody
  | SceneId.geometries => Controls.tickBody
  | SceneId.text3D => Controls.tickBody
  | SceneId.textures => Controls.tickBody
  | SceneId.lights => Lights.tickBody
  | SceneId.materials => Materials.tickBody
  | SceneId.shadows => Shadows.tickBody
  | SceneId.transformObjects => []

/-- One run of the scene's `tick`. -/
def tick (sc : SceneId) (throws : Op → Bool) (s : State) : State :=
  runOps throws (tickBody sc) s

/-- What `init` runs last: `animate(...)`, which calls `tick()` once, or in
transform-objects (line 33) the single `renderer.render(scene, camera)`. -/
def firstDraw : SceneId → List Op
  | SceneId.transformObjects => [Op.render]
  | sc => tickBody sc

/-- The renderer construction of each scene. -/
def rendererSetup : SceneId → State → State
  | SceneId.transformObjects => TransformObjects.createRenderer
  | _ => createRenderer

/-- The function `init()` of each scene up to the start of the loop, as far as
sizes, camera and renderer go: `sizes` is read from the window, then
`createCamera` and `createRenderer`. A new `WebGLRenderer` has pixel ratio 1 and
the size of the canvas element (300 by 150 by default). -/
def setup (sc : SceneId) (w : Window) : State :=
  let sizes : Sizes := { width := w.innerWidth, height := w.innerHeight }
  rendererSetup sc
    { window := w, sizes := sizes, camera := createCamera sizes,
      renderer := { width := 300, height := 150, pixelRatio := 1 },
      pendingFrames := 0, log := [] }

/-- The function `init()` of each scene: the setup, then the first draw. -/
def init (sc : SceneId) (throws : Op → Bool) (w : Window) : State :=
  runOps throws (firstDraw sc) (setup sc w)

/-- A display frame: the browser takes the callbacks registered so far and runs
each of them once; callbacks registered meanwhile wait for the next frame. -/
def dispatchFrame (sc : SceneId) (throws : Op → Bool) (s : State) : State :=
  (tick sc throws)^[s.pendingFrames] { s with pendingFrames := 0 }

/-- What can happen to a running scene: the window is resized, or a display
frame arrives (with the statements that throw in that frame, if any). -/
inductive Event where
  | resize (w : Window)
  | frame (throws : Op → Bool)

/-- The reaction of a scene to one event. -/
def step (sc : SceneId) (s : State) : Event → State
  | Event.resize w => resizeEvent sc w s
  | Event.frame throws => dispatchFrame sc throws s

/-- The reaction of a scene to a sequence of events. -/
def run (sc : SceneId) (s : State) (evs : List Event) : State :=
  evs.foldl (step sc) s

/-- No statement throws. -/
def noThrow : Op → Bool := fun _ => false

/-- Exactly the statement `op` throws. -/
def throwsAt (op : Op) : Op → Bool := fun o => decide (o = op)

/-! ## The fullscreen toggle (fullscreen-and-resizing) -/

/-- A method property of a host object, as the optional call `obj.m?.()` sees
it: `absent` (the property is `undefined`, the call is skipped and yields
`undefined`), `present truthy` (a function; `truthy` tells whether the value it
returns is truthy, a promise in the standard API and `undefined` in the webkit
one), or `notCallable` (a defined value that is not a function, on which the
call raises a `TypeError`). -/
inductive Method where
  | absent
  | present (truthy : Bool)
  | notCallable
  deriving DecidableEq

/-- The fullscreen interface of the platform the scene runs on: the four methods
the handler looks up, and whether the platform maintains the standard property
`document.fullscreenElement`. A platform that ships only the webkit interface
keeps the fullscreen element in `document.webkitFullscreenElement`, and
`document.fullscreenElement` reads `undefined` there. -/
structure Platform where
  requestFullscreen : Method
  webkitRequestFullscreen : Method
  exitFullscreen : Method
  webkitExitFullscreen : Method
  hasFullscreenElement : Bool
  deriving DecidableEq

/-- The fullscreen methods the handler can call. -/
inductive FullscreenCall where
  | requestFullscreen
  | webkitRequestFullscreen
  | exitFullscreen
  | webkitExitFullscreen
  deriving DecidableEq

/-- The display state: whether the canvas is shown fullscreen, and the
fullscreen methods called so far. -/
structure Display where
  fullscreen : Bool
  calls : List FullscreenCall
  deriving DecidableEq

/-- The outcome of running a handler: it returns, or a `TypeError` leaves it;
both with the display as it then is. -/
inductive Completion where
  | returned (d : Display)
  | typeError (d : Display)
  deriving DecidableEq

/-- The display after the platform has carried out a fullscreen call made from
a user gesture: a request shows the canvas fullscreen, an exit returns to the
window. -/
def perform (c : FullscreenCall) (d : Display) : Display :=
  match c with
  | FullscreenCall.requestFullscreen => { fullscreen := true, calls := d.calls ++ [c] }
  | FullscreenCall.webkitRequestFullscreen => { fullscreen := true, calls := d.calls ++ [c] }
  | FullscreenCall.exitFullscreen => { fullscreen := false, calls := d.calls ++ [c] }
  | FullscreenCall.webkitExitFullscreen => { fullscreen := false, calls := d.calls ++ [c] }

/-- The expression `document.fullscreenElement` as a condition: truthy when the
platform maintains the property and an element is fullscreen. -/
def fullscreenElement (p : Platform) (d : Display) : Bool :=
  p.hasFullscreenElement && d.fullscreen

/-- The expression statement `a?.() || b?.()`: `b` is looked up only when the
first call is skipped or returns a falsy value. -/
def callEither (a : Method) (ca : FullscreenCall) (b : Method) (cb : FullscreenCall)
    (d : Display) : Completion :=
  match a with
  | Method.notCallable => Completion.typeError d
  | Method.present true => Completion.returned (perform ca d)
  | Method.present false =>
      match b with
      | Method.notCallable => Completion.typeError (perform ca d)
      | Method.present _ => Completion.returned (perform cb (perform ca d))
      | Method.absent => Completion.returned (perform ca d)
  | Method.absent =>
      match b with
      | Method.notCallable => Completion.typeError d
      | Method.present _ => Completion.returned (perform cb d)
      | Method.absent => Completion.returned d

/-- The `dblclick` listener registered by `setupEventListeners` of
fullscreen-and-resizing (lines 92-98). -/
def setupEventListeners.dblclick (p : Platform) (d : Display) : Completion :=
  if !(fullscreenElement p d) then
    callEither p.requestFullscreen FullscreenCall.requestFullscreen
      p.webkitRequestFullscreen FullscreenCall.webkitRequestFullscreen d
  else
    callEither p.exitFullscreen FullscreenCall.exitFullscreen
      p.webkitExitFullscreen FullscreenCall.webkitExitFullscreen d

/-- The display a completion leaves behind. -/
def Completion.display : Completion → Display
  | Completion.returned d => d
  | Completion.typeError d => d

/-- Whether the handler returned. -/
def Completion.isReturned : Completion → Bool
  | Completion.returned _ => true
  | Completion.typeError _ => false

/-- A method that is a function. -/
def Method.isPresent : Method → Bool
  | Method.present _ => true
  | _ => false

/-- A method that is a function or `undefined`. -/
def Method.wellFormed : Method → Bool
  | Method.notCallable => false
  | _ => true

/-- Every method of the platform is a function or `undefined`. -/
def Platform.wellFormed (p : Platform) : Bool :=
  p.requestFullscreen.wellFormed && p.webkitRequestFullscreen.wellFormed &&
  p.exitFullscreen.wellFormed && p.webkitExitFullscreen.wellFormed

/-- The platform supports fullscreen through the standard methods. -/
def Platform.standard (p : Platform) : Bool :=
  p.requestFullscreen.isPresent && p.exitFullscreen.isPresent

/-- The platform supports fullscreen through the webkit methods. -/
def Platform.webkit (p : Platform) : Bool :=
  p.webkitRequestFullscreen.isPresent && p.webkitExitFullscreen.isPresent

/-- A platform with only the webkit fullscreen interface: the standard methods
and `document.fullscreenElement` are undefined, the webkit methods return
`undefined`. -/
def webkitOnly : Platform :=
  { requestFullscreen := Method.absent,
    webkitRequestFullscreen := Method.present false,
    exitFullscreen := Method.absent,
    webkitExitFullscreen := Method.present false,
    hasFullscreenElement := false }

/-- A platform with the standard fullscreen interface, whose methods return
promises. -/
def standardOnly : Platform :=
  { requestFullscreen := Method.present true,
    webkitRequestFullscreen := Method.absent,
    exitFullscreen := Method.present true,
    webkitExitFullscreen := Method.absent,
    hasFullscreenElement := true }

/-- The initial display: windowed, nothing called. -/
def windowed : Display := { fullscreen := false, calls := [] }

/-! ## The debug panel (debug-ui) -/

/-- A box geometry of size 1 x 1 x 1, by its three segment counts. -/
structure BoxGeometry where
  widthSegments : Nat
  heightSegments : Nat
  depthSegments : Nat
  deriving DecidableEq

/-- The geometry operations of the debug-ui scene. -/
inductive GeometryCall where
  | dispose (g : BoxGeometry)
  | create (g : BoxGeometry)
  deriving DecidableEq

/-- The debug-ui scene as far as the `subdivision` control goes:
`debugObject.subdivision`, `mesh.geometry` and the geometry operations run so
far. -/
structure DebugScene where
  subdivision : Nat
  geometry : BoxGeometry
  calls : List GeometryCall
  deriving DecidableEq

/-- The function `createMesh()` of debug-ui (lines 46-54): `subdivision` is 2
and the geometry is built from it. -/
def createMesh : DebugScene :=
  { subdivision := 2, geometry := { widthSegments := 2, heightSegments := 2, depthSegments := 2 },
    calls := [GeometryCall.create { widthSegments := 2, heightSegments := 2, depthSegments := 2 }] }

/-- The callback given to `onFinishChange` for `subdivision` in `setupDebugUI`
(lines 77-80): the geometry rebuild. -/
def setupDebugUI.onFinishChange (d : DebugScene) : DebugScene :=
  let d := { d with calls := d.calls ++ [GeometryCall.dispose d.geometry] }
  let g : BoxGeometry :=
    { widthSegments := d.subdivision, heightSegments := d.subdivision,
      depthSegments := d.subdivision }
  { d with geometry := g, calls := d.calls ++ [GeometryCall.create g] }

/-- A number controller of the panel: the bounds given to `add` and the
callbacks registered on it. -/
structure Controller where
  min : Nat
  max : Nat
  onChange : Option (DebugScene → DebugScene)
  onFinishChange : Option (DebugScene → DebugScene)

/-- The controller of `subdivision` as `setupDebugUI` builds it (line 77):
`cubeTweaks.add(debugObject, 'subdivision', 1, 20, 1).onFinishChange(...)`, with
no `onChange` callback. -/
def subdivisionController : Controller :=
  { min := 1, max := 20, onChange := none, onFinishChange := some setupDebugUI.onFinishChange }

/-- The panel library clamps every value it is about to set to the bounds of
the controller. -/
def Controller.clamp (c : Controller) (v : Nat) : Nat :=
  let v := if v < c.min then c.min else v
  if v > c.max then c.max else v

/-- What the panel does to a controller during an interaction: `change v` is an
intermediate value (the slider moves to `v`, a position already snapped to the
step 1), `commit` is the end of the interaction. -/
inductive PanelEvent where
  | change (v : Nat)
  | commit
  deriving DecidableEq

/-- The scene together with the `_changed` flag of the `subdivision`
controller, which the panel library sets when a value change ran and clears at
the end of the interaction. -/
structure PanelState where
  scene : DebugScene
  changed : Bool

/-- The panel library on one event of a controller bound to
`debugObject.subdivision`. A value is clamped to the bounds; when it differs
from the value in place the library writes the property, calls the `onChange`
callback, if one is registered, and sets the flag. At the end of the
interaction it calls the `onFinishChange` callback, if one is registered, only
when the flag is set, and clears the flag. -/
def panelStep (c : Controller) (p : PanelState) : PanelEvent → PanelState
  | PanelEvent.change v =>
      if p.scene.subdivision = c.clamp v then p
      else
        { scene :=
            match c.onChange with
            | some f => f { p.scene with subdivision := c.clamp v }
            | none => { p.scene with subdivision := c.clamp v },
          changed := true }
  | PanelEvent.commit =>
      if p.changed then
        { scene :=
            match c.onFinishChange with
            | some f => f p.scene
            | none => p.scene,
          changed := false }
      else p

/-- A sequence of panel events on the `subdivision` control, from any state of
the flag. -/
def panelFold (p : PanelState) (evs : List PanelEvent) : PanelState :=
  evs.foldl (panelStep subdivisionController) p

/-- A sequence of panel events on the `subdivision` control, starting with no
value change pending. -/
def panelRun (d : DebugScene) (evs : List PanelEvent) : DebugScene :=
  (panelFold { scene := d, changed := false } evs).scene

/-- The number of `new THREE.BoxGeometry(...)` evaluations so far. -/
def builds (d : DebugScene) : Nat :=
  d.calls.countP (fun c => match c with
    | GeometryCall.create _ => true
    | GeometryCall.dispose _ => false)

/-- The number of `dispose()` calls so far. -/
def disposals (d : DebugScene) : Nat :=
  d.calls.countP (fun c => match c with
    | GeometryCall.dispose _ => true
    | GeometryCall.create _ => false)

/-- The geometries that are alive after a sequence of geometry operations:
created and not yet disposed. -/
def live (calls : List GeometryCall) : List BoxGeometry :=
  calls.foldl (fun acc c => match c with
    | GeometryCall.create g => acc ++ [g]
    | GeometryCall.dispose g => acc.erase g) []

/-- The debug panel object `gui`, by its `_hidden` flag. -/
structure Gui where
  hidden : Bool
  deriving DecidableEq

/-- The panel library method `gui.show(show)`: it sets `_hidden` to `!show`
(and the display style of the panel element accordingly). -/
def Gui.showPanel (gui : Gui) (visible : Bool) : Gui :=
  { gui with hidden := !visible }

/-- The debug-ui scene with its panel: the panel, the mesh properties bound to
controls (`mesh.position.y`, `mesh.visible`, `material.wireframe`, the material
colour) and the geometry state. -/
structure DebugUi where
  gui : Gui
  positionY : ℚ
  visible : Bool
  wireframe : Bool
  color : String
  scene : DebugScene
  deriving DecidableEq

/-- The `keydown` listener registered by `setupDebugUI` (lines 63-65):
`if (event.key === 'h') gui.show(gui._hidden)`. -/
def setupDebugUI.keydown (key : String) (u : DebugUi) : DebugUi :=
  if key = "h" then { u with gui := u.gui.showPanel u.gui.hidden } else u

/-! ## Resource loading (materials, text3D, textures) -/

/-- The `mapping` property of a texture: the default, or
`THREE.EquirectangularReflectionMapping`. -/
inductive Mapping where
  | uv
  | equirectangularReflection
  deriving DecidableEq

/-- An environment map, by the path it was loaded from and its `mapping`. -/
structure EnvironmentMap where
  path : String
  mapping : Mapping
  deriving DecidableEq

/-- A child of the scene: an object added by `init` (mesh, light, camera), the
text mesh built from a font, or a donut with its random position, rotation (as
the two random factors of `Math.PI`) and uniform scale. -/
inductive Node where
  | object (name : String)
  | text (font : String)
  | donut (position : ℚ × ℚ × ℚ) (rotationOverPi : ℚ × ℚ) (scale : ℚ)
  deriving DecidableEq

/-- The scene graph: the children of the scene, `scene.background` and
`scene.environment`. -/
structure SceneGraph where
  children : List Node
  background : Option EnvironmentMap
  environment : Option EnvironmentMap
  deriving DecidableEq

/-- What completion callbacks can touch: the scene graph, the console, and the
number of `Math.random()` calls made so far. -/
structure World where
  scene : SceneGraph
  console : List String
  randomCalls : Nat
  deriving DecidableEq

/-- The statement `console.log(line)`. -/
def consoleLog (line : String) (w : World) : World :=
  { w with console := w.console ++ [line] }

/-- How a load ends. -/
inductive LoadResult (R : Type) where
  | loaded (resource : R)
  | failed

/-- The callbacks of a `THREE.LoadingManager`. -/
structure Manager where
  onStart : Option (World → World)
  onLoad : Option (World → World)
  onProgress : Option (World → World)
  onError : Option (World → World)

/-- The default loading manager, which has no callback. -/
def defaultManager : Manager :=
  { onStart := none, onLoad := none, onProgress := none, onError := none }

/-- A call `loader.load(url, onLoad, onProgress, onError)` on a loader built with
`manager`. -/
structure LoadRequest (R : Type) where
  onLoad : Option (R → World → World)
  onProgress : Option (World → World)
  onError : Option (World → World)
  manager : Manager

/-- Runs a callback when one was given. -/
def callIfGiven (f : Option (World → World)) (w : World) : World :=
  match f with
  | some g => g w
  | none => w

/-- The loader library at the end of a load: on success the `onLoad` callback
runs with the resource, on failure the `onError` callback and the manager's
`onError`; in both cases the manager then reports the item as ended (`onProgress`,
and `onLoad` of the manager when it was the last item in flight). -/
def complete {R : Type} (req : LoadRequest R) (last : Bool) : LoadResult R → World → World
  | LoadResult.loaded r, w =>
      let w := match req.onLoad with
        | some f => f r w
        | none => w
      let w := callIfGiven req.manager.onProgress w
      if last then callIfGiven req.manager.onLoad w else w
  | LoadResult.failed, w =>
      let w := callIfGiven req.onError w
      let w := callIfGiven req.manager.onError w
      let w := callIfGiven req.manager.onProgress w
      if last then callIfGiven req.manager.onLoad w else w

/-- The `onLoad` callback of `loadEnvironmentMap` of materials (lines 78-82). -/
def loadEnvironmentMap.onLoad (environmentMap : EnvironmentMap) (w : World) : World :=
  let environmentMap := { environmentMap with mapping := Mapping.equirectangularReflection }
  { w with scene := { w.scene with background := some environmentMap,
                                   environment := some environmentMap } }

/-- The call `rgbeLoader.load('./textures/environmentMap/2k.hdr', ...)` of
materials (lines 77-82): an `onLoad` callback only. -/
def loadEnvironmentMap.request : LoadRequest EnvironmentMap :=
  { onLoad := some loadEnvironmentMap.onLoad, onProgress := none, onError := none,
    manager := defaultManager }

/-- One turn of the loop of `createDonuts` of text3D (lines 95-105): six
`Math.random()` calls, in order three for the position, two for the rotation and
one for the scale, then `scene.add(donut)`. `random n` is the value of the call
numbered `n`. -/
def createDonut (random : Nat → ℚ) (w : World) : World :=
  let n := w.randomCalls
  let donut := Node.donut
    ((random n - 1 / 2) * 10, (random (n + 1) - 1 / 2) * 10, (random (n + 2) - 1 / 2) * 10)
    (random (n + 3), random (n + 4)) (random (n + 5))
  { w with scene := { w.scene with children := w.scene.children ++ [donut] },
           randomCalls := n + 6 }

/-- The function `createDonuts(scene, material)` of text3D (lines 91-107): the
loop runs 100 times. -/
def createDonuts (random : Nat → ℚ) (w : World) : World :=
  (createDonut random)^[100] w

/-- The `onLoad` callback of `loadText` of text3D (lines 62-85): the text mesh
is added to the scene, then the donuts. -/
def loadText.onLoad (random : Nat → ℚ) (font : String) (w : World) : World :=
  let w := { w with scene := { w.scene with children := w.scene.children ++ [Node.text font] } }
  createDonuts random w

/-- The call `fontLoader.load('/fonts/helvetiker_regular.typeface.json', ...)` of
text3D (lines 62-85): an `onLoad` callback only. -/
def loadText.request (random : Nat → ℚ) : LoadRequest String :=
  { onLoad := some (loadText.onLoad random), onProgress := none, onError := none,
    manager := defaultManager }

/-- The loading manager of `loadTextures` of textures (lines 45-50): four
callbacks that log. -/
def loadTextures.loadingManager : Manager :=
  { onStart := some (consoleLog "Loading started"),
    onLoad := some (consoleLog "Loading finished"),
    onProgress := some (consoleLog "Loading in progress"),
    onError := some (consoleLog "Loading error") }

/-- The call `textureLoader.load('/textures/minecraft.png', ...)` of textures
(lines 54-59): three callbacks that log. -/
def loadTextures.colorTexture : LoadRequest String :=
  { onLoad := some (fun _ => consoleLog "Texture loaded successfully"),
    onProgress := some (consoleLog "Texture loading in progress"),
    onError := some (consoleLog "Texture loading error"),
    manager := loadTextures.loadingManager }

/-- The six other calls `textureLoader.load(path)` of textures (lines 70-75): no
callback, the same manager. -/
def loadTextures.otherTexture : LoadRequest String :=
  { onLoad := none, onProgress := none, onError := none,
    manager := loadTextures.loadingManager }

/-- The calls `textureLoader.load(path)` of materials (lines 58-69), text3D
(line 51) and shadows (lines 57-58): no callback, the default manager. -/
def plainTexture : LoadRequest String :=
  { onLoad := none, onProgress := none, onError := none, manager := defaultManager }

/-! ## Per-frame animation values (lights, materials, shadows) and the cursor (cameras)

Numbers are taken in an ordered field `K` (the rationals, the reals): decimal
constants are the exact fractions, and `Math.sin`, `Math.cos` are parameters. -/

/-- The `rotation` of a mesh. -/
structure Euler (K : Type) where
  x : K
  y : K
  z : K

/-- The `position` of a mesh. -/
structure Vec3 (K : Type) where
  x : K
  y : K
  z : K

/-- The three animated meshes of lights, `objects.sphere`, `objects.cube` and
`objects.torus`, by their rotations. -/
structure LightsObjects (K : Type) where
  sphere : Euler K
  cube : Euler K
  torus : Euler K

/-- The six rotation writes of `tick` of lights (lines 181-187), in order, for
the elapsed time sampled by the tick. -/
def Lights.tickWrites {K : Type} [LinearOrderedField K] (elapsedTime : K)
    (objects : LightsObjects K) : LightsObjects K :=
  let objects := { objects with sphere := { objects.sphere with y := 1 / 10 * elapsedTime } }
  let objects := { objects with cube := { objects.cube with y := 1 / 10 * elapsedTime } }
  let objects := { objects with torus := { objects.torus with y := 1 / 10 * elapsedTime } }
  let objects := { objects with sphere := { objects.sphere with x := 3 / 20 * elapsedTime } }
  let objects := { objects with cube := { objects.cube with x := 3 / 20 * elapsedTime } }
  { objects with torus := { objects.torus with x := 3 / 20 * elapsedTime } }

/-- The rotation writes of `tick` of materials (lines 190-193): for each mesh,
`rotation.y = 0.1 * elapsedTime` then `rotation.x = -0.15 * elapsedTime`. -/
def Materials.tickWrites {K : Type} [LinearOrderedField K] (elapsedTime : K)
    (meshes : List (Euler K)) : List (Euler K) :=
  meshes.map (fun mesh =>
    let mesh := { mesh with y := 1 / 10 * elapsedTime }
    { mesh with x := -(3 / 20) * elapsedTime })

/-- The objects the tick of shadows animates: the position of `objects.sphere`,
the position of `objects.sphereShadow` and the opacity of its material. -/
structure ShadowObjects (K : Type) where
  sphere : Vec3 K
  sphereShadow : Vec3 K
  shadowOpacity : K

/-- The six writes of `tick` of shadows (lines 218-225), in order, for the
elapsed time sampled by the tick. -/
def Shadows.tickWrites {K : Type} [LinearOrderedField K] (sin cos : K → K) (elapsedTime : K)
    (objects : ShadowObjects K) : ShadowObjects K :=
  let objects := { objects with sphere := { objects.sphere with x := cos elapsedTime * (3 / 2) } }
  let objects := { objects with sphere := { objects.sphere with z := sin elapsedTime * (3 / 2) } }
  let objects := { objects with sphere := { objects.sphere with y := |sin (elapsedTime * 3)| } }
  let objects :=
    { objects with sphereShadow := { objects.sphereShadow with x := objects.sphere.x } }
  let objects :=
    { objects with sphereShadow := { objects.sphereShadow with z := objects.sphere.z } }
  { objects with shadowOpacity := (1 - objects.sphere.y) * (3 / 10) }

/-- The elapsed time 0.016 as the clock returns it: the double nearest to
0.016, as an exact fraction. -/
def elapsed16ms : ℚ := 1152921504606847 / 72057594037927936

/-- The double `Math.sin` returns at the elapsed time 0.016, as an exact
fraction (0.015999317342071415); at the other arguments, which no statement
uses, the value at 0. -/
def sinDouble (a : ℚ) : ℚ :=
  if a = elapsed16ms then 4611489255675849 / 288230376151711744 else 0

/-- The double `Math.cos` returns at the elapsed time 0.016, as an exact
fraction (0.9998720027306434); at the other arguments, which no statement uses,
the value at 0. -/
def cosDouble (a : ℚ) : ℚ :=
  if a = elapsed16ms then 4503023178915917 / 4503599627370496 else 1

/-- The `cursor` record of cameras. -/
structure Cursor (K : Type) where
  x : K
  y : K

/-- The function `onCursorMove(event, cursor, sizes)` of cameras (lines 83-86),
for an event at (`clientX`, `clientY`). The quotient is the one of the field, so
the embedding is exact for a positive width and height (for a zero width or
height JavaScript yields `Infinity` or `NaN`). -/
def onCursorMove {K : Type} [LinearOrderedField K] (clientX clientY : K) (cursor : Cursor K)
    (sizes : Sizes) : Cursor K :=
  let cursor := { cursor with x := clientX / (sizes.width : K) - 1 / 2 }
  { cursor with y := -(clientY / (sizes.height : K) - 1 / 2) }

/-- The `mousemove` listener of cameras (line 19): `onCursorMove` on the `sizes`
record shared with the resize handler. -/
def Cameras.mousemove {K : Type} [LinearOrderedField K] (clientX clientY : K)
    (cursor : Cursor K) (s : State) : Cursor K :=
  onCursorMove clientX clientY cursor s.sizes

/-! ## The orbit controller -/

/-- Modelled from the spec: the state of the orbit camera controller, which is
`OrbitControls` of three.js and not under `src/` (the scenes construct it, set
`enableDamping` and call `update()` once per tick). The committed angles and
radius, the target angles and radius accumulated from input, the damping factor,
and the bounds of the polar angle (a small angle and its supplement) and of the
radius. -/
structure OrbitState (K : Type) where
  azimuth : K
  polar : K
  radius : K
  targetAzimuth : K
  targetPolar : K
  targetRadius : K
  damping : K
  polarMin : K
  polarMax : K
  minRadius : K
  maxRadius : K

/-- Modelled from the spec: clamping a value to an interval, as the controller
does with the polar angle and the radius. -/
def clampTo {K : Type} [LinearOrderedField K] (lo hi x : K) : K :=
  max lo (min hi x)

/-- Modelled from the spec: pointer input of the orbit controller, which
accumulates a raw delta onto the target angles; the polar angle stays clamped. -/
def OrbitState.drag {K : Type} [LinearOrderedField K] (deltaAzimuth deltaPolar : K)
    (s : OrbitState K) : OrbitState K :=
  { s with targetAzimuth := s.targetAzimuth + deltaAzimuth,
           targetPolar := clampTo s.polarMin s.polarMax (s.targetPolar + deltaPolar) }

/-- Modelled from the spec: `update` of the orbit controller. Each call moves
the committed angles and radius a fraction `damping` of the remaining distance
toward their targets; the polar clamp is enforced on the committed value at
every call, and the radius is clamped to its interval. -/
def OrbitState.update {K : Type} [LinearOrderedField K] (s : OrbitState K) : OrbitState K :=
  { s with
    azimuth := s.azimuth + s.damping * (s.targetAzimuth - s.azimuth),
    polar := clampTo s.polarMin s.polarMax (s.polar + s.damping * (s.targetPolar - s.polar)),
    radius := clampTo s.minRadius s.maxRadius
      (s.radius + s.damping * (s.targetRadius - s.radius)) }

/-- Modelled from the spec: the invariant of the orbit state, the committed and
the target polar angle are within the polar bounds. -/
def OrbitState.InRange {K : Type} [LinearOrderedField K] (s : OrbitState K) : Prop :=
  s.polarMin ≤ s.polar ∧ s.polar ≤ s.polarMax ∧
  s.polarMin ≤ s.targetPolar ∧ s.targetPolar ≤ s.polarMax

/-- Modelled from the spec: a controller at rest (committed angles equal to
their targets) with damping 0.1, azimuth 0, polar angle 1 and radius 3; the
polar bounds are 0.01 and 3.13. -/
def orbitAtRest : OrbitState ℚ :=
  { azimuth := 0, polar := 1, radius := 3,
    targetAzimuth := 0, targetPolar := 1, targetRadius := 3,
    damping := 1 / 10, polarMin := 1 / 100, polarMax := 313 / 100,
    minRadius := 1, maxRadius := 10 }

/-- The scenes that construct orbit controls and update them in their tick: all
but animations and transform-objects. -/
def SceneId.hasControls : SceneId → Bool
  | SceneId.animations => false
  | SceneId.transformObjects => false
  | _ => true

/-! ## Shadow configuration (shadows) and the random mesh (geometries) -/

/-- The camera of a light shadow: the planes `configureShadow` can write, and
its `zoom`, which it does not mention. -/
structure ShadowCamera (K : Type) where
  near : K
  far : K
  top : K
  right : K
  bottom : K
  left : K
  zoom : K

/-- The `shadow` of a light: `mapSize.width`, `mapSize.height`, the shadow
camera, and the properties `bias`, `normalBias` and `radius`, which
`configureShadow` does not mention. -/
structure LightShadow (K : Type) where
  mapSizeWidth : K
  mapSizeHeight : K
  camera : ShadowCamera K
  bias : K
  normalBias : K
  radius : K

/-- The sixth argument of a call of `configureShadow`: left out, `null`, or a
number. -/
inductive SizeArgument (K : Type) where
  | omitted
  | null
  | given (size : K)

/-- The parameter `size = null`: a left-out argument takes the default `null`;
`none` stands for `null`. -/
def SizeArgument.withDefault {K : Type} : SizeArgument K → Option K
  | SizeArgument.omitted => none
  | SizeArgument.null => none
  | SizeArgument.given size => some size

/-- The function `configureShadow(shadow, width, height, near, far, size = null)`
of shadows (lines 100-111). -/
def configureShadow {K : Type} [LinearOrderedField K] (shadow : LightShadow K)
    (width height near far : K) (sizeArgument : SizeArgument K) : LightShadow K :=
  let shadow := { shadow with mapSizeWidth := width }
  let shadow := { shadow with mapSizeHeight := height }
  let shadow := { shadow with camera := { shadow.camera with near := near } }
  let shadow := { shadow with camera := { shadow.camera with far := far } }
  match sizeArgument.withDefault with
  | some size =>
      let shadow := { shadow with camera := { shadow.camera with top := size } }
      let shadow := { shadow with camera := { shadow.camera with right := size } }
      let shadow := { shadow with camera := { shadow.camera with bottom := -size } }
      { shadow with camera := { shadow.camera with left := -size } }
  | none => shadow

/-- The state of the loop of `createRandomMesh`: the contents of
`positionsArray`, the indices assigned so far in order, and the number of
`Math.random()` calls made so far. -/
structure FillState (K : Type) where
  array : List K
  writes : List Nat
  randomCalls : Nat

/-- One turn of the loop of `createRandomMesh` (line 46):
`positionsArray[i] = (Math.random() - 0.5) * 4`. `random n` is the value of the
call numbered `n`, and `toFloat32` is the conversion a `Float32Array` applies to
a number stored in it, which is `fround`. -/
def createRandomMesh.assign {K : Type} [LinearOrderedField K] (toFloat32 : K → K)
    (random : Nat → K) (st : FillState K) (i : Nat) : FillState K :=
  { array := st.array.set i (toFloat32 ((random st.randomCalls - 1 / 2) * 4)),
    writes := st.writes ++ [i],
    randomCalls := st.randomCalls + 1 }

/-- The array part of `createRandomMesh(count)` (lines 43-47): a new
`Float32Array(count * 3 * 3)`, which is filled with zeros, then the loop
`for (let i = 0; i < positionsArray.length; i++)`. `calls` is the number of
`Math.random()` calls made before. -/
def createRandomMesh.fill {K : Type} [LinearOrderedField K] (toFloat32 : K → K)
    (random : Nat → K) (calls : Nat) (count : Nat) : FillState K :=
  let positionsArray : List K := List.replicate (count * 3 * 3) 0
  (List.range positionsArray.length).foldl (createRandomMesh.assign toFloat32 random)
    { array := positionsArray, writes := [], randomCalls := calls }

/-- A `THREE.BufferAttribute`: its array and its item size. -/
structure BufferAttribute (K : Type) where
  array : List K
  itemSize : Nat

/-- The mesh `createRandomMesh` returns: the `position` attribute of its
geometry and its material (colour and wireframe flag). -/
structure RandomMesh (K : Type) where
  position : BufferAttribute K
  color : Nat
  wireframe : Bool

/-- The function `createRandomMesh(count)` of geometries (lines 41-54). -/
def createRandomMesh {K : Type} [LinearOrderedField K] (toFloat32 : K → K)
    (random : Nat → K) (calls : Nat) (count : Nat) : RandomMesh K :=
  { position :=
      { array := (createRandomMesh.fill toFloat32 random calls count).array, itemSize := 3 },
    color := 0xff0000,
    wireframe := true }

/-- Rounding to the nearest integer, a tie going to the even one. -/
def roundHalfEven (q : ℚ) : ℤ :=
  if q - ⌊q⌋ < 1 / 2 then ⌊q⌋
  else if 1 / 2 < q - ⌊q⌋ then ⌊q⌋ + 1
  else if ⌊q⌋ % 2 = 0 then ⌊q⌋ else ⌊q⌋ + 1

/-- The binary exponent single precision gives a number: the integer part of
the base-2 logarithm of its magnitude, and -126 for the magnitudes below
`2^-126` (the subnormal numbers) and for zero. -/
def float32Exponent (x : ℚ) : ℤ := max (Int.log 2 |x|) (-126)

/-- The conversion a `Float32Array` applies to a number stored in it: the
nearest single-precision number, 24 significant bits at the exponent of the
number, a tie going to the even one. It is exact for the magnitudes below
`2^128`, beyond which JavaScript stores `Infinity`. -/
def fround (x : ℚ) : ℚ :=
  (roundHalfEven (x / 2 ^ (float32Exponent x - 23)) : ℚ) * 2 ^ (float32Exponent x - 23)

/-- The viewport invariant: the aspect is the quotient of `sizes`, and `sizes`
is the inner size of the window. -/
def Settled (s : State) : Prop :=
  s.camera.aspect = jsDiv s.sizes.width s.sizes.height ∧
  s.sizes = { width := s.window.innerWidth, height := s.window.innerHeight }

/-- The four steps the viewport contract asks of a resize to window `w`, in
order. -/
def fourSteps (w : Window) : List Call :=
  [Call.setAspect (jsDiv w.innerWidth w.innerHeight), Call.updateProjectionMatrix,
   Call.setSize w.innerWidth w.innerHeight, Call.setPixelRatio (min w.devicePixelRatio 2)]

/-- A tick body in the order the loop contract asks for: at most one clock
sample, first; then the animation writes; then at most one controller update;
then one render call; then the request for the next frame, and nothing else. -/
def Ordered (ops : List Op) : Prop :=
  ∃ (clock : List Op) (targets : List String) (controls : List Op),
    ops = clock ++ targets.map Op.animate ++ controls ++ [Op.render, Op.requestAnimationFrame] ∧
    (clock = [] ∨ clock = [Op.getElapsedTime]) ∧
    (controls = [] ∨ controls = [Op.controlsUpdate])

/-- An event during which no statement of the scene's tick throws. -/
def Event.completes (sc : SceneId) : Event → Prop
  | Event.resize _ => True
  | Event.frame throws => ∀ op ∈ tickBody sc, throws op = false

/-! ## Frame lemmas: what the tick leaves alone -/

theorem exec_frame (op : Op) (s : State) :
    (exec op s).window = s.window ∧ (exec op s).sizes = s.sizes ∧
    (exec op s).camera = s.camera ∧ (exec op s).renderer = s.renderer := by
  cases op <;> simp [exec]

theorem runOps_frame (throws : Op → Bool) (ops : List Op) (s : State) :
    (runOps throws ops s).window = s.window ∧ (runOps throws ops s).sizes = s.sizes ∧
    (runOps throws ops s).camera = s.camera ∧ (runOps throws ops s).renderer = s.renderer := by
  induction ops generalizing s with
  | nil => simp [runOps]
  | cons op rest ih =>
    by_cases h : throws op = true
    · simp [runOps, h]
    · obtain ⟨h1, h2, h3, h4⟩ := ih (exec op s)
      obtain ⟨e1, e2, e3, e4⟩ := exec_frame op s
      simp [runOps, h, h1, h2, h3, h4, e1, e2, e3, e4]

theorem iterate_tick_frame (sc : SceneId) (throws : Op → Bool) (n : Nat) (s : State) :
    ((tick sc throws)^[n] s).window = s.window ∧ ((tick sc throws)^[n] s).sizes = s.sizes ∧
    ((tick sc throws)^[n] s).camera = s.camera ∧ ((tick sc throws)^[n] s).renderer = s.renderer := by
  induction n generalizing s with
  | zero => simp
  | succ n ih =>
    obtain ⟨h1, h2, h3, h4⟩ := ih (tick sc throws s)
    obtain ⟨e1, e2, e3, e4⟩ := runOps_frame throws (tickBody sc) s
    simp only [Function.iterate_succ, Function.comp_apply]
    refine ⟨?_, ?_, ?_, ?_⟩
    · rw [h1]; exact e1
    · rw [h2]; exact e2
    · rw [h3]; exact e3
    · rw [h4]; exact e4

theorem dispatchFrame_frame (sc : SceneId) (throws : Op → Bool) (s : State) :
    (dispatchFrame sc throws s).window = s.window ∧
    (dispatchFrame sc throws s).sizes = s.sizes ∧
    (dispatchFrame sc throws s).camera = s.camera ∧
    (dispatchFrame sc throws s).renderer = s.renderer := by
  unfold dispatchFrame
  exact iterate_tick_frame sc throws s.pendingFrames _

/-! ## Resize lemmas -/

/-- What every resize handler establishes. -/
theorem resizeEvent_viewport (sc : SceneId) (w : Window) (s : State) :
    (resizeEvent sc w s).window = w ∧
    (resizeEvent sc w s).sizes = { width := w.innerWidth, height := w.innerHeight } ∧
    (resizeEvent sc w s).camera.aspect = jsDiv w.innerWidth w.innerHeight ∧
    (resizeEvent sc w s).camera.projectionAspect = jsDiv w.innerWidth w.innerHeight ∧
    (resizeEvent sc w s).renderer.width = w.innerWidth ∧
    (resizeEvent sc w s).renderer.height = w.innerHeight := by
  cases sc <;>
    simp [resizeEvent, resizeHandler, onWindowResize, TransformObjects.onWindowResize,
      setupEventListeners.resize, readWindowSize, setAspect, updateProjectionMatrix, setSize,
      setPixelRatio]

theorem settled_init (sc : SceneId) (throws : Op → Bool) (w : Window) :
    Settled (init sc throws w) := by
  obtain ⟨h1, h2, h3, _⟩ := runOps_frame throws (firstDraw sc) (setup sc w)
  unfold Settled init
  simp only [h1, h2, h3]
  cases sc <;>
    simp [setup, rendererSetup, createRenderer, TransformObjects.createRenderer, setSize,
      setPixelRatio, createCamera]

theorem settled_step (sc : SceneId) (s : State) (e : Event) (h : Settled s) :
    Settled (step sc s e) := by
  cases e with
  | resize w =>
    obtain ⟨h1, h2, h3, _⟩ := resizeEvent_viewport sc w s
    simp only [step, Settled, h1, h2, h3, and_self]
  | frame throws =>
    obtain ⟨h1, h2, h3, _⟩ := dispatchFrame_frame sc throws s
    simp only [step, Settled, h1, h2, h3]
    exact h

theorem settled_run (sc : SceneId) (evs : List Event) (s : State) (h : Settled s) :
    Settled (run sc s evs) := by
  induction evs generalizing s with
  | nil => simpa [run] using h
  | cons e rest ih =>
    have := ih (step sc s e) (settled_step sc s e h)
    simpa [run] using this

/-- The calls a resize handler makes, per scene. -/
theorem resizeEvent_log (sc : SceneId) (w : Window) (s : State) :
    (resizeEvent sc w s).log =
      s.log ++ (if sc = SceneId.animations ∨ sc = SceneId.cameras
        then (fourSteps w).take 3 else fourSteps w) := by
  cases sc <;>
    simp [resizeEvent, resizeHandler, onWindowResize, TransformObjects.onWindowResize,
      setupEventListeners.resize, readWindowSize, setAspect, updateProjectionMatrix, setSize,
      setPixelRatio, fourSteps]

/-- The pixel ratio after a resize handler, per scene. -/
theorem resizeEvent_pixelRatio (sc : SceneId) (w : Window) (s : State) :
    (resizeEvent sc w s).renderer.pixelRatio =
      (if sc = SceneId.animations ∨ sc = SceneId.cameras
        then s.renderer.pixelRatio else min w.devicePixelRatio 2) := by
  cases sc <;>
    simp [resizeEvent, resizeHandler, onWindowResize, TransformObjects.onWindowResize,
      setupEventListeners.resize, readWindowSize, setAspect, updateProjectionMatrix, setSize,
      setPixelRatio]

theorem resizeEvent_pendingFrames (sc : SceneId) (w : Window) (s : State) :
    (resizeEvent sc w s).pendingFrames = s.pendingFrames := by
  cases sc <;>
    simp [resizeEvent, resizeHandler, onWindowResize, TransformObjects.onWindowResize,
      setupEventListeners.resize, readWindowSize, setAspect, updateProjectionMatrix, setSize,
      setPixelRatio]

theorem resizeHandler_eq_resizeEvent (sc : SceneId) (s : State) :
    resizeHandler sc s = resizeEvent sc s.window s := rfl

/-! ## Tick lemmas -/

theorem callOf_congr (s t : State) (hc : t.camera = s.camera) (hr : t.renderer = s.renderer) :
    callOf t = callOf s := by
  funext op
  cases op <;> simp [callOf, hc, hr]

theorem exec_log (op : Op) (s : State) : (exec op s).log = s.log ++ [callOf s op] := by
  cases op <;> simp [exec]

theorem exec_pendingFrames (op : Op) (s : State) :
    (exec op s).pendingFrames = s.pendingFrames + [op].count Op.requestAnimationFrame := by
  cases op <;> simp [exec]

/-- When no statement of `ops` throws, all of them run, in order. -/
theorem runOps_completes (throws : Op → Bool) (ops : List Op) (s : State)
    (h : ∀ op ∈ ops, throws op = false) :
    (runOps throws ops s).log = s.log ++ ops.map (callOf s) ∧
    (runOps throws ops s).pendingFrames = s.pendingFrames + ops.count Op.requestAnimationFrame := by
  induction ops generalizing s with
  | nil => simp [runOps]
  | cons op rest ih =>
    have hop : throws op = false := h op (List.mem_cons_self _ _)
    have hrest : ∀ o ∈ rest, throws o = false := fun o ho => h o (List.mem_cons_of_mem _ ho)
    obtain ⟨h1, h2⟩ := ih (exec op s) hrest
    obtain ⟨_, _, e3, e4⟩ := exec_frame op s
    have hc : callOf (exec op s) = callOf s := callOf_congr s (exec op s) e3 e4
    simp only [runOps, hop, Bool.false_eq_true, if_false]
    rw [h1, h2, exec_log, exec_pendingFrames, hc]
    constructor
    · simp
    · rw [List.count_cons, List.count_cons, List.count_nil]
      omega

/-- When a statement throws before `requestAnimationFrame` is reached, no
callback is registered, whatever follows in the body. -/
theorem runOps_throw_pending (throws : Op → Bool) (ops rest : List Op) (s : State)
    (hthrow : ∃ op ∈ ops, throws op = true) (hreq : Op.requestAnimationFrame ∉ ops) :
    (runOps throws (ops ++ rest) s).pendingFrames = s.pendingFrames := by
  induction ops generalizing s with
  | nil =>
    obtain ⟨op, hop, _⟩ := hthrow
    exact absurd hop (List.not_mem_nil op)
  | cons o os ih =>
    by_cases ho : throws o = true
    · simp [runOps, ho]
    · have hne : o ≠ Op.requestAnimationFrame := fun h => hreq (h ▸ List.mem_cons_self _ _)
      have hos : ∃ op ∈ os, throws op = true := by
        obtain ⟨op, hop, ht⟩ := hthrow
        rcases List.mem_cons.mp hop with rfl | hmem
        · exact absurd ht ho
        · exact ⟨op, hmem, ht⟩
      have hreq2 : Op.requestAnimationFrame ∉ os := fun h => hreq (List.mem_cons_of_mem _ h)
      have hrec := ih (exec o s) hos hreq2
      have hex : (exec o s).pendingFrames = s.pendingFrames := by
        cases o <;> simp [exec] at hne ⊢
      have hof : throws o = false := by simpa using ho
      show (runOps throws (o :: (os ++ rest)) s).pendingFrames = s.pendingFrames
      rw [runOps, hof]
      simp only [Bool.false_eq_true, if_false]
      rw [hrec, hex]

/-- Every tick body ends with the one `requestAnimationFrame` it contains. -/
theorem tickBody_split (sc : SceneId) (h : sc ≠ SceneId.transformObjects) :
    ∃ body, tickBody sc = body ++ [Op.requestAnimationFrame] ∧
      Op.requestAnimationFrame ∉ body := by
  cases sc
  case transformObjects => exact absurd rfl h
  case animations => exact ⟨[Op.render], rfl, by simp⟩
  case lights =>
    exact ⟨Lights.tickBody.dropLast, rfl, by simp [Lights.tickBody]⟩
  case materials =>
    exact ⟨Materials.tickBody.dropLast, rfl, by simp [Materials.tickBody, Materials.meshes]⟩
  case shadows =>
    exact ⟨Shadows.tickBody.dropLast, rfl, by simp [Shadows.tickBody]⟩
  all_goals exact ⟨Controls.tickBody.dropLast, rfl, by simp [Controls.tickBody]⟩

theorem tickBody_count_request (sc : SceneId) (h : sc ≠ SceneId.transformObjects) :
    (tickBody sc).count Op.requestAnimationFrame = 1 := by
  cases sc
  case transformObjects => exact absurd rfl h
  all_goals
    simp [tickBody, Animations.tickBody, Controls.tickBody, Lights.tickBody, Materials.tickBody,
      Materials.meshes, Shadows.tickBody, List.count_cons]

/-- A tick in which nothing throws registers exactly one callback. -/
theorem tick_completes_pending (sc : SceneId) (throws : Op → Bool) (s : State)
    (hsc : sc ≠ SceneId.transformObjects) (h : ∀ op ∈ tickBody sc, throws op = false) :
    (tick sc throws s).pendingFrames = s.pendingFrames + 1 := by
  have := (runOps_completes throws (tickBody sc) s h).2
  rw [tickBody_count_request sc hsc] at this
  exact this

/-- A tick in which a statement before `requestAnimationFrame` throws registers
no callback. -/
theorem tick_throw_pending (sc : SceneId) (throws : Op → Bool) (s : State)
    (h : ∃ op ∈ tickBody sc, op ≠ Op.requestAnimationFrame ∧ throws op = true) :
    (tick sc throws s).pendingFrames = s.pendingFrames := by
  have hsc : sc ≠ SceneId.transformObjects := by
    rintro rfl
    obtain ⟨op, hop, _⟩ := h
    simp [tickBody] at hop
  obtain ⟨body, hbody, hreq⟩ := tickBody_split sc hsc
  unfold tick
  rw [hbody]
  apply runOps_throw_pending throws body _ s _ hreq
  obtain ⟨op, hop, hne, ht⟩ := h
  rw [hbody] at hop
  rcases List.mem_append.mp hop with hmem | hmem
  · exact ⟨op, hmem, ht⟩
  · simp at hmem
    exact absurd hmem hne

/-- With no callback pending, a frame runs nothing. -/
theorem dispatchFrame_idle (sc : SceneId) (throws : Op → Bool) (s : State)
    (h : s.pendingFrames = 0) : dispatchFrame sc throws s = s := by
  cases s
  simp only at h
  subst h
  rfl

/-- With one callback pending, a frame is one tick. -/
theorem dispatchFrame_one (sc : SceneId) (throws : Op → Bool) (s : State)
    (h : s.pendingFrames = 1) :
    dispatchFrame sc throws s = tick sc throws { s with pendingFrames := 0 } := by
  unfold dispatchFrame
  rw [h]
  rfl

/-- In every tick, whatever throws, the calls made are an initial segment of the
tick body, followed by the record of the statement that threw, if one did. -/
theorem runOps_initial_segment (throws : Op → Bool) (ops : List Op) (s : State) :
    ∃ n : Nat, (runOps throws ops s).log =
      s.log ++ (ops.take n).map (callOf s) ++ (ops.get? n).toList.map Call.threw := by
  induction ops generalizing s with
  | nil => exact ⟨0, by simp [runOps]⟩
  | cons op rest ih =>
    by_cases h : throws op = true
    · exact ⟨0, by simp [runOps, h]⟩
    · obtain ⟨n, hn⟩ := ih (exec op s)
      obtain ⟨_, _, e3, e4⟩ := exec_frame op s
      have hc : callOf (exec op s) = callOf s := callOf_congr s (exec op s) e3 e4
      refine ⟨n + 1, ?_⟩
      have hof : throws op = false := by simpa using h
      rw [runOps, hof]
      simp only [Bool.false_eq_true, if_false]
      rw [hn, exec_log, hc]
      simp

/-! ## Fullscreen lemmas -/

/-- With both methods a function or `undefined`, `a?.() || b?.()` returns. -/
theorem callEither_returns (a b : Method) (ca cb : FullscreenCall) (d : Display)
    (ha : a.wellFormed = true) (hb : b.wellFormed = true) :
    (callEither a ca b cb d).isReturned = true := by
  rcases a with _ | ta | _ <;> rcases b with _ | tb | _ <;>
    simp [Method.wellFormed] at ha hb <;>
    (try cases ta) <;>
    simp [callEither, Completion.isReturned]

/-! ## Panel lemmas -/

/-- One value change: the geometry and the geometry operations are untouched,
the property holds the clamped value, and the flag is set when the value moved. -/
theorem panelStep_change (p : PanelState) (v : Nat) :
    (panelStep subdivisionController p (PanelEvent.change v)).scene.calls = p.scene.calls ∧
    (panelStep subdivisionController p (PanelEvent.change v)).scene.geometry
      = p.scene.geometry ∧
    (panelStep subdivisionController p (PanelEvent.change v)).scene.subdivision
      = subdivisionController.clamp v ∧
    (p.changed = true →
      (panelStep subdivisionController p (PanelEvent.change v)).changed = true) ∧
    (subdivisionController.clamp v ≠ p.scene.subdivision →
      (panelStep subdivisionController p (PanelEvent.change v)).changed = true) ∧
    (subdivisionController.clamp v = p.scene.subdivision →
      panelStep subdivisionController p (PanelEvent.change v) = p) := by
  by_cases h : p.scene.subdivision = subdivisionController.clamp v
  · have hstep : panelStep subdivisionController p (PanelEvent.change v) = p := by
      simp only [panelStep, h, if_true]
    rw [hstep]
    exact ⟨rfl, rfl, h, fun hc => hc, fun hne => absurd h.symm hne, fun _ => rfl⟩
  · have hstep : panelStep subdivisionController p (PanelEvent.change v) =
        { scene := { p.scene with subdivision := subdivisionController.clamp v },
          changed := true } := by
      simp only [panelStep, h, if_false]
      rfl
    rw [hstep]
    exact ⟨rfl, rfl, rfl, fun _ => rfl, fun _ => rfl, fun heq => absurd heq.symm h⟩

/-- Intermediate value changes write `debugObject.subdivision` and nothing
else; the flag is set as soon as one of them moves the value. -/
theorem panelFold_changes (values : List Nat) (p : PanelState) :
    (panelFold p (values.map PanelEvent.change)).scene.calls = p.scene.calls ∧
    (panelFold p (values.map PanelEvent.change)).scene.geometry = p.scene.geometry ∧
    (panelFold p (values.map PanelEvent.change)).scene.subdivision =
      (values.getLast?.map subdivisionController.clamp).getD p.scene.subdivision ∧
    ((p.changed = true ∨ ∃ v ∈ values, subdivisionController.clamp v ≠ p.scene.subdivision) →
      (panelFold p (values.map PanelEvent.change)).changed = true) := by
  induction values generalizing p with
  | nil => simp [panelFold]
  | cons v rest ih =>
    obtain ⟨h1, h2, h3, h4⟩ := ih (panelStep subdivisionController p (PanelEvent.change v))
    obtain ⟨e1, e2, e3, e4, e5, e6⟩ := panelStep_change p v
    have hfold : panelFold p ((v :: rest).map PanelEvent.change) =
        panelFold (panelStep subdivisionController p (PanelEvent.change v))
          (rest.map PanelEvent.change) := by
      simp [panelFold]
    rw [hfold]
    refine ⟨by rw [h1, e1], by rw [h2, e2], ?_, ?_⟩
    · rw [h3, e3]
      cases rest with
      | nil => simp
      | cons r rs =>
        have hlast : (r :: rs).getLast? = some ((r :: rs).getLast (by simp)) :=
          List.getLast?_eq_getLast _ _
        simp [List.getLast?_cons_cons, hlast]
    · intro h
      apply h4
      rcases h with hc | ⟨w, hw, hne⟩
      · exact Or.inl (e4 hc)
      · by_cases hv : subdivisionController.clamp v = p.scene.subdivision
        · rcases List.mem_cons.mp hw with rfl | hmem
          · exact absurd hv hne
          · right
            refine ⟨w, hmem, ?_⟩
            rw [e3, hv]
            exact hne
        · exact Or.inl (e5 hv)

/-- A commit with a change pending runs the `onFinishChange` callback. -/
theorem panelStep_commit_changed (p : PanelState) (h : p.changed = true) :
    (panelStep subdivisionController p PanelEvent.commit).scene =
      setupDebugUI.onFinishChange p.scene := by
  simp only [panelStep, h, if_true]
  rfl

theorem panelFold_append (p : PanelState) (xs ys : List PanelEvent) :
    panelFold p (xs ++ ys) = panelFold (panelFold p xs) ys := by
  simp [panelFold, List.foldl_append]

theorem onFinishChange_calls (d : DebugScene) :
    (setupDebugUI.onFinishChange d).calls =
      d.calls ++ [GeometryCall.dispose d.geometry,
        GeometryCall.create ⟨d.subdivision, d.subdivision, d.subdivision⟩] := by
  simp [setupDebugUI.onFinishChange]

/-! ## Claims -/

/-- C1. In every scene the camera aspect is derived from `sizes`: right after
`createCamera` it is `sizes.width / sizes.height`; after every resize handler it
is the quotient of the window's inner width and height, which `sizes` then
holds; the equality holds in every state reached from `init` by resize events
and frames; and a frame (the only other code that runs) leaves `camera.aspect`
and `sizes` as they were. -/
theorem camera_aspect_follows_sizes :
    (∀ sizes : Sizes, (createCamera sizes).aspect = jsDiv sizes.width sizes.height) ∧
    (∀ (sc : SceneId) (w : Window) (s : State),
      (resizeEvent sc w s).sizes = { width := w.innerWidth, height := w.innerHeight } ∧
      (resizeEvent sc w s).camera.aspect =
        jsDiv (resizeEvent sc w s).sizes.width (resizeEvent sc w s).sizes.height) ∧
    (∀ (sc : SceneId) (throws : Op → Bool) (w : Window) (evs : List Event),
      (run sc (init sc throws w) evs).camera.aspect =
        jsDiv (run sc (init sc throws w) evs).sizes.width
          (run sc (init sc throws w) evs).sizes.height) ∧
    (∀ (sc : SceneId) (throws : Op → Bool) (s : State),
      (dispatchFrame sc throws s).camera.aspect = s.camera.aspect ∧
      (dispatchFrame sc throws s).sizes = s.sizes) := by
  refine ⟨fun _ => rfl, ?_, ?_, ?_⟩
  · intro sc w s
    obtain ⟨_, h2, h3, _⟩ := resizeEvent_viewport sc w s
    rw [h2, h3]
    exact ⟨rfl, rfl⟩
  · intro sc throws w evs
    exact (settled_run sc evs _ (settled_init sc throws w)).1
  · intro sc throws s
    obtain ⟨_, h2, h3, _⟩ := dispatchFrame_frame sc throws s
    exact ⟨by rw [h3], h2⟩

/-- C2. In every scene, after a resize event to a window of inner size (w, h)
the `sizes` record is (w, h) and `renderer.setSize(w, h)` was among the calls the
handler made, leaving the renderer target at (w, h). After a resize to 800 x 600
the camera aspect is 800/600 (that is 4/3), and the next tick runs its
statements on that state: its render call sees the projection aspect 800/600 and
the target 800 x 600. -/
theorem resize_sets_sizes_and_target :
    (∀ (sc : SceneId) (w : Window) (s : State),
      (resizeEvent sc w s).sizes = { width := w.innerWidth, height := w.innerHeight } ∧
      (resizeEvent sc w s).renderer.width = w.innerWidth ∧
      (resizeEvent sc w s).renderer.height = w.innerHeight ∧
      Call.setSize w.innerWidth w.innerHeight ∈ (resizeEvent sc w s).log.drop s.log.length) ∧
    (∀ (sc : SceneId) (dpr : ℚ) (s : State),
      (resizeEvent sc ⟨800, 600, dpr⟩ s).camera.aspect = jsDiv 800 600 ∧
      jsDiv 800 600 = JsNumber.finite (4 / 3) ∧
      (resizeEvent sc ⟨800, 600, dpr⟩ s).renderer.width = 800 ∧
      (resizeEvent sc ⟨800, 600, dpr⟩ s).renderer.height = 600 ∧
      (tick sc noThrow (resizeEvent sc ⟨800, 600, dpr⟩ s)).log =
        (resizeEvent sc ⟨800, 600, dpr⟩ s).log ++
          (tickBody sc).map (callOf (resizeEvent sc ⟨800, 600, dpr⟩ s)) ∧
      callOf (resizeEvent sc ⟨800, 600, dpr⟩ s) Op.render =
        Call.render (jsDiv 800 600) 800 600) := by
  constructor
  · intro sc w s
    obtain ⟨_, h2, _, _, h5, h6⟩ := resizeEvent_viewport sc w s
    refine ⟨h2, h5, h6, ?_⟩
    rw [resizeEvent_log]
    simp only [List.drop_left]
    split <;> simp [fourSteps]
  · intro sc dpr s
    obtain ⟨_, _, h3, h4, h5, h6⟩ := resizeEvent_viewport sc ⟨800, 600, dpr⟩ s
    refine ⟨h3, ?_, h5, h6, ?_, ?_⟩
    · simp only [jsDiv]
      norm_num
    · exact (runOps_completes noThrow (tickBody sc) _ (fun _ _ => rfl)).1
    · simp only [callOf, h4, h5, h6]

/-- C4 (the code at the failing input). In the animations scene, started in a
1024 x 768 window with device pixel ratio 1, a resize event to an 800 x 600
window with device pixel ratio 2 makes three calls only: the aspect update, the
projection recompute and `setSize`. `setPixelRatio` is not called and the
renderer keeps pixel ratio 1. The cameras scene has the same handler. -/
theorem animations_resize_omits_pixel_ratio :
    (resizeEvent SceneId.animations ⟨800, 600, 2⟩
        (init SceneId.animations noThrow ⟨1024, 768, 1⟩)).log =
      (init SceneId.animations noThrow ⟨1024, 768, 1⟩).log ++
        [Call.setAspect (jsDiv 800 600), Call.updateProjectionMatrix, Call.setSize 800 600] ∧
    (resizeEvent SceneId.animations ⟨800, 600, 2⟩
        (init SceneId.animations noThrow ⟨1024, 768, 1⟩)).renderer.pixelRatio = 1 ∧
    (resizeHandler SceneId.cameras = resizeHandler SceneId.animations) ∧
    fourSteps ⟨800, 600, 2⟩ =
      [Call.setAspect (jsDiv 800 600), Call.updateProjectionMatrix, Call.setSize 800 600,
       Call.setPixelRatio 2] := by
  refine ⟨?_, ?_, rfl, ?_⟩
  · rw [resizeEvent_log]
    simp [fourSteps]
  · rw [resizeEvent_pixelRatio]
    simp [init, setup, rendererSetup, createRenderer, firstDraw, tickBody, Animations.tickBody, runOps,
      noThrow, exec, setPixelRatio, setSize]
  · simp [fourSteps]

/-- The nine scenes whose resize handler makes the four steps in order:
aspect update, projection recompute, `setSize`, and the pixel-ratio clamp. -/
theorem resize_four_steps_in_order (sc : SceneId) (w : Window) (s : State)
    (h : sc ≠ SceneId.animations ∧ sc ≠ SceneId.cameras) :
    (resizeEvent sc w s).log = s.log ++ fourSteps w := by
  rw [resizeEvent_log]
  simp [h.1, h.2]

/-- The four steps in the debug-ui scene, on a resize to 800 x 600 at device pixel
ratio 3. -/
theorem resize_four_steps_in_order_witness :
    (SceneId.debugUi ≠ SceneId.animations ∧ SceneId.debugUi ≠ SceneId.cameras) ∧
    (resizeEvent SceneId.debugUi ⟨800, 600, 3⟩
        (init SceneId.debugUi noThrow ⟨1024, 768, 1⟩)).log =
      (init SceneId.debugUi noThrow ⟨1024, 768, 1⟩).log ++ fourSteps ⟨800, 600, 3⟩ :=
  ⟨by decide, resize_four_steps_in_order SceneId.debugUi ⟨800, 600, 3⟩ _ (by decide)⟩

/-- C7. The resize handler of every scene is idempotent: run twice in a row on
the same window state, it leaves `sizes`, the camera (aspect and projection),
the renderer target size and the renderer pixel ratio as after the first run. -/
theorem resize_handler_idempotent (sc : SceneId) (s : State) :
    (resizeHandler sc (resizeHandler sc s)).sizes = (resizeHandler sc s).sizes ∧
    (resizeHandler sc (resizeHandler sc s)).camera.aspect = (resizeHandler sc s).camera.aspect ∧
    (resizeHandler sc (resizeHandler sc s)).camera.projectionAspect =
      (resizeHandler sc s).camera.projectionAspect ∧
    (resizeHandler sc (resizeHandler sc s)).renderer.width = (resizeHandler sc s).renderer.width ∧
    (resizeHandler sc (resizeHandler sc s)).renderer.height =
      (resizeHandler sc s).renderer.height ∧
    (resizeHandler sc (resizeHandler sc s)).renderer.pixelRatio =
      (resizeHandler sc s).renderer.pixelRatio ∧
    (resizeHandler sc (resizeHandler sc s)).window = (resizeHandler sc s).window := by
  cases sc <;>
    simp [resizeHandler, onWindowResize, TransformObjects.onWindowResize,
      setupEventListeners.resize, readWindowSize, setAspect, updateProjectionMatrix, setSize,
      setPixelRatio]


/-- C3 (counterexample). In the cameras scene, started in an 800 x 600 window,
one tick is pending after `init`. When the render call throws in the next frame,
no callback is pending afterwards, and the frame after that runs nothing: its
log is unchanged. The failing frame has stopped the loop. -/
theorem render_throw_stops_cameras_loop :
    (init SceneId.cameras noThrow ⟨800, 600, 1⟩).pendingFrames = 1 ∧
    (dispatchFrame SceneId.cameras (throwsAt Op.render)
      (init SceneId.cameras noThrow ⟨800, 600, 1⟩)).pendingFrames = 0 ∧
    (dispatchFrame SceneId.cameras noThrow
      (dispatchFrame SceneId.cameras (throwsAt Op.render)
        (init SceneId.cameras noThrow ⟨800, 600, 1⟩))).log =
      (dispatchFrame SceneId.cameras (throwsAt Op.render)
        (init SceneId.cameras noThrow ⟨800, 600, 1⟩)).log := by
  have h1 : (init SceneId.cameras noThrow ⟨800, 600, 1⟩).pendingFrames = 1 := by
    simp [init, setup, rendererSetup, createRenderer, firstDraw, tickBody, Controls.tickBody,
      runOps, noThrow, exec, setPixelRatio, setSize]
  have h2 : (dispatchFrame SceneId.cameras (throwsAt Op.render)
      (init SceneId.cameras noThrow ⟨800, 600, 1⟩)).pendingFrames = 0 := by
    rw [dispatchFrame_one _ _ _ h1]
    simp [tick, tickBody, Controls.tickBody, runOps, throwsAt, exec]
  exact ⟨h1, h2, by rw [dispatchFrame_idle _ _ _ h2]⟩

/-- C3 (amended). No scene catches exceptions, and `requestAnimationFrame` is
the last statement of every tick: when the controller update, an animation write
or the render call (any statement before the request) throws during a tick, that
tick registers no callback. When it was the only pending callback, nothing is
pending after the frame, every later frame leaves the state as it is, and a
resize event does not restart the loop. -/
theorem throwing_tick_stops_loop (sc : SceneId) (throws : Op → Bool) (s : State)
    (h : ∃ op ∈ tickBody sc, op ≠ Op.requestAnimationFrame ∧ throws op = true)
    (hp : s.pendingFrames = 1) :
    (tick sc throws s).pendingFrames = s.pendingFrames ∧
    (dispatchFrame sc throws s).pendingFrames = 0 ∧
    (∀ later : Op → Bool,
      dispatchFrame sc later (dispatchFrame sc throws s) = dispatchFrame sc throws s) ∧
    (∀ w : Window, (resizeEvent sc w (dispatchFrame sc throws s)).pendingFrames = 0) := by
  have h0 : (dispatchFrame sc throws s).pendingFrames = 0 := by
    rw [dispatchFrame_one _ _ _ hp, tick_throw_pending sc throws _ h]
  refine ⟨tick_throw_pending sc throws s h, h0, ?_, ?_⟩
  · intro later
    exact dispatchFrame_idle sc later _ h0
  · intro w
    rw [resizeEvent_pendingFrames, h0]

/-- The lights scene, with the controller update throwing in the first frame
after `init`. -/
theorem throwing_tick_stops_loop_witness :
    (init SceneId.lights noThrow ⟨800, 600, 1⟩).pendingFrames = 1 ∧
    (dispatchFrame SceneId.lights (throwsAt Op.controlsUpdate)
      (init SceneId.lights noThrow ⟨800, 600, 1⟩)).pendingFrames = 0 :=
  have hp : (init SceneId.lights noThrow ⟨800, 600, 1⟩).pendingFrames = 1 := by
    simp [init, setup, rendererSetup, createRenderer, firstDraw, tickBody, Lights.tickBody,
      runOps, noThrow, exec, setPixelRatio, setSize]
  ⟨hp, (throwing_tick_stops_loop SceneId.lights (throwsAt Op.controlsUpdate)
    (init SceneId.lights noThrow ⟨800, 600, 1⟩)
    ⟨Op.controlsUpdate, by simp [tickBody, Lights.tickBody], by simp, by simp [throwsAt]⟩
    hp).2.1⟩

/-- C5. In every looping scene the tick body is ordered: at most one clock
sample, before everything else; then the per-frame animation writes; then the
controller update; then one render call; and after the render call only the
request for the next frame. A tick in which nothing throws runs exactly these
statements in this order, so it renders exactly once. -/
theorem tick_order (sc : SceneId) (s : State) (h : sc ≠ SceneId.transformObjects) :
    Ordered (tickBody sc) ∧
    (tickBody sc).count Op.getElapsedTime ≤ 1 ∧
    (tickBody sc).count Op.render = 1 ∧
    (tick sc noThrow s).log = s.log ++ (tickBody sc).map (callOf s) ∧
    (∀ throws : Op → Bool, ∃ n : Nat, (tick sc throws s).log =
      s.log ++ ((tickBody sc).take n).map (callOf s) ++
        ((tickBody sc).get? n).toList.map Call.threw) := by
  refine ⟨?_, ?_, ?_, (runOps_completes noThrow (tickBody sc) s (fun _ _ => rfl)).1,
    fun throws => runOps_initial_segment throws (tickBody sc) s⟩
  · cases sc
    case transformObjects => exact absurd rfl h
    case animations => exact ⟨[], [], [], rfl, Or.inl rfl, Or.inl rfl⟩
    case lights =>
      exact ⟨[Op.getElapsedTime],
        ["sphere.rotation.y", "cube.rotation.y", "torus.rotation.y",
         "sphere.rotation.x", "cube.rotation.x", "torus.rotation.x"],
        [Op.controlsUpdate], rfl, Or.inr rfl, Or.inr rfl⟩
    case materials =>
      exact ⟨[Op.getElapsedTime],
        Materials.meshes.flatMap (fun m => [m ++ ".rotation.y", m ++ ".rotation.x"]),
        [Op.controlsUpdate], rfl, Or.inr rfl, Or.inr rfl⟩
    case shadows =>
      exact ⟨[Op.getElapsedTime],
        ["sphere.position.x", "sphere.position.z", "sphere.position.y",
         "sphereShadow.position.x", "sphereShadow.position.z", "sphereShadow.material.opacity"],
        [Op.controlsUpdate], rfl, Or.inr rfl, Or.inr rfl⟩
    all_goals exact ⟨[Op.getElapsedTime], [], [Op.controlsUpdate], rfl, Or.inr rfl, Or.inr rfl⟩
  · cases sc <;>
      simp [tickBody, Animations.tickBody, Controls.tickBody, Lights.tickBody,
        Materials.tickBody, Materials.meshes, Shadows.tickBody, List.count_cons]
  · cases sc
    case transformObjects => exact absurd rfl h
    all_goals
      simp [tickBody, Animations.tickBody, Controls.tickBody, Lights.tickBody,
        Materials.tickBody, Materials.meshes, Shadows.tickBody, List.count_cons]

/-- The first tick of the shadows scene in an 800 x 600 window. -/
theorem tick_order_witness :
    SceneId.shadows ≠ SceneId.transformObjects ∧
    (tickBody SceneId.shadows).count Op.render = 1 ∧
    (tick SceneId.shadows noThrow (setup SceneId.shadows ⟨800, 600, 1⟩)).log =
      (setup SceneId.shadows ⟨800, 600, 1⟩).log ++
        (tickBody SceneId.shadows).map (callOf (setup SceneId.shadows ⟨800, 600, 1⟩)) :=
  ⟨by decide,
   (tick_order SceneId.shadows (setup SceneId.shadows ⟨800, 600, 1⟩) (by decide)).2.2.1,
   (tick_order SceneId.shadows (setup SceneId.shadows ⟨800, 600, 1⟩) (by decide)).2.2.2.1⟩

/-- C6 (counterexample). The transform-objects scene starts no loop: its `init`
calls `setSize` and renders once, no callback is pending afterwards, and a
display frame changes nothing. -/
theorem transformObjects_has_no_loop :
    (init SceneId.transformObjects noThrow ⟨800, 600, 1⟩).log =
      [Call.setSize 800 600, Call.render (jsDiv 800 600) 800 600] ∧
    (init SceneId.transformObjects noThrow ⟨800, 600, 1⟩).pendingFrames = 0 ∧
    dispatchFrame SceneId.transformObjects noThrow
        (init SceneId.transformObjects noThrow ⟨800, 600, 1⟩) =
      init SceneId.transformObjects noThrow ⟨800, 600, 1⟩ := by
  have h : (init SceneId.transformObjects noThrow ⟨800, 600, 1⟩).pendingFrames = 0 := by
    simp [init, setup, rendererSetup, TransformObjects.createRenderer, firstDraw, runOps,
      noThrow, exec, setSize]
  refine ⟨?_, h, dispatchFrame_idle _ _ _ h⟩
  simp [init, setup, rendererSetup, TransformObjects.createRenderer, firstDraw, runOps,
    noThrow, exec, setSize, callOf, createCamera]

/-- C6 (amended). Every scene except transform-objects starts a continuous
redraw loop: `init` ends with the first tick, every tick in which nothing throws
registers exactly one callback, and after any sequence of resize events and of
frames whose ticks complete exactly one callback is pending. In
transform-objects no callback is ever pending. -/
theorem redraw_loop_one_pending (sc : SceneId) (w : Window) (evs : List Event)
    (hsc : sc ≠ SceneId.transformObjects) (hev : ∀ e ∈ evs, Event.completes sc e) :
    init sc noThrow w = tick sc noThrow (setup sc w) ∧
    (∀ (throws : Op → Bool) (s : State), (∀ op ∈ tickBody sc, throws op = false) →
      (tick sc throws s).pendingFrames = s.pendingFrames + 1) ∧
    (run sc (init sc noThrow w) evs).pendingFrames = 1 ∧
    (∀ (throws : Op → Bool) (w0 : Window) (es : List Event),
      (run SceneId.transformObjects (init SceneId.transformObjects throws w0) es).pendingFrames
        = 0) := by
  have hinit : init sc noThrow w = tick sc noThrow (setup sc w) := by
    cases sc
    case transformObjects => exact absurd rfl hsc
    all_goals rfl
  have hsetup : (setup sc w).pendingFrames = 0 := by
    cases sc <;>
      simp [setup, rendererSetup, createRenderer, TransformObjects.createRenderer, setSize,
        setPixelRatio]
  refine ⟨hinit, fun throws s h => tick_completes_pending sc throws s hsc h, ?_, ?_⟩
  · have h0 : (init sc noThrow w).pendingFrames = 1 := by
      rw [hinit, tick_completes_pending sc noThrow _ hsc (fun _ _ => rfl), hsetup]
    generalize init sc noThrow w = s at h0
    induction evs generalizing s with
    | nil => simpa [run] using h0
    | cons e rest ih =>
      have hrest : ∀ e ∈ rest, Event.completes sc e := fun e he =>
        hev e (List.mem_cons_of_mem _ he)
      have he : Event.completes sc e := hev e (List.mem_cons_self _ _)
      have hstep : (step sc s e).pendingFrames = 1 := by
        cases e with
        | resize w1 => simp only [step, resizeEvent_pendingFrames, h0]
        | frame throws =>
          simp only [step]
          rw [dispatchFrame_one _ _ _ h0, tick_completes_pending sc throws _ hsc he]
      have := ih hrest (step sc s e) hstep
      simpa [run] using this
  · intro throws w0 es
    have h0 : (init SceneId.transformObjects throws w0).pendingFrames = 0 := by
      by_cases ht : throws Op.render = true <;>
        simp [init, setup, rendererSetup, TransformObjects.createRenderer, firstDraw, runOps,
          exec, setSize, ht]
    generalize init SceneId.transformObjects throws w0 = s at h0
    induction es generalizing s with
    | nil => simpa [run] using h0
    | cons e rest ih =>
      have hstep : (step SceneId.transformObjects s e).pendingFrames = 0 := by
        cases e with
        | resize w1 => simp only [step, resizeEvent_pendingFrames, h0]
        | frame throws1 =>
          simp only [step]
          rw [dispatchFrame_idle _ _ _ h0, h0]
      have := ih (step SceneId.transformObjects s e) hstep
      simpa [run] using this

/-- The text3D scene through a frame, a resize and another frame. -/
theorem redraw_loop_one_pending_witness :
    SceneId.text3D ≠ SceneId.transformObjects ∧
    (run SceneId.text3D (init SceneId.text3D noThrow ⟨800, 600, 1⟩)
      [Event.frame noThrow, Event.resize ⟨1024, 768, 2⟩, Event.frame noThrow]).pendingFrames
        = 1 :=
  ⟨by decide,
   (redraw_loop_one_pending SceneId.text3D ⟨800, 600, 1⟩
      [Event.frame noThrow, Event.resize ⟨1024, 768, 2⟩, Event.frame noThrow] (by decide)
      (by
        intro e he
        simp only [List.mem_cons, List.mem_singleton, List.not_mem_nil, or_false] at he
        rcases he with rfl | rfl | rfl
        · intro op _; rfl
        · trivial
        · intro op _; rfl)).2.2.1⟩

/-- C8 (the code at the failing input). On a platform that has only the webkit
fullscreen methods, `document.fullscreenElement` is undefined. The first
double-click calls `webkitRequestFullscreen` and the canvas goes fullscreen; the
second double-click finds no fullscreen element either, calls
`webkitRequestFullscreen` again and never `webkitExitFullscreen`: the canvas
stays fullscreen. -/
theorem webkitOnly_second_dblclick_stays_fullscreen :
    webkitOnly.webkit = true ∧
    setupEventListeners.dblclick webkitOnly windowed =
      Completion.returned ⟨true, [FullscreenCall.webkitRequestFullscreen]⟩ ∧
    setupEventListeners.dblclick webkitOnly ⟨true, [FullscreenCall.webkitRequestFullscreen]⟩ =
      Completion.returned
        ⟨true, [FullscreenCall.webkitRequestFullscreen,
                FullscreenCall.webkitRequestFullscreen]⟩ := by
  refine ⟨rfl, rfl, rfl⟩

/-- Where the platform maintains `document.fullscreenElement`, the double-click
handler is a two-state toggle: with the standard or the webkit methods present,
a double-click in the window goes fullscreen and the next one returns to the
window. -/
theorem dblclick_toggles_with_fullscreenElement (p : Platform) (calls : List FullscreenCall)
    (hel : p.hasFullscreenElement = true) (hwf : p.wellFormed = true)
    (hsup : p.standard = true ∨ p.webkit = true) :
    (setupEventListeners.dblclick p ⟨false, calls⟩).isReturned = true ∧
    (setupEventListeners.dblclick p ⟨false, calls⟩).display.fullscreen = true ∧
    (setupEventListeners.dblclick p
      (setupEventListeners.dblclick p ⟨false, calls⟩).display).isReturned = true ∧
    (setupEventListeners.dblclick p
      (setupEventListeners.dblclick p ⟨false, calls⟩).display).display.fullscreen = false := by
  obtain ⟨a, b, c, d, e⟩ := p
  simp only at hel
  subst hel
  rcases a with _ | ta | _ <;> rcases b with _ | tb | _ <;> rcases c with _ | tc | _ <;>
    rcases d with _ | td | _ <;>
    simp [Platform.wellFormed, Method.wellFormed, Platform.standard, Platform.webkit,
      Method.isPresent] at hwf hsup <;>
    (try cases ta) <;> (try cases tb) <;> (try cases tc) <;> (try cases td) <;>
    simp [setupEventListeners.dblclick, fullscreenElement, callEither, perform,
      Completion.isReturned, Completion.display]

/-- Two double-clicks on a platform with the standard interface. -/
theorem dblclick_toggles_with_fullscreenElement_witness :
    (setupEventListeners.dblclick standardOnly windowed).display.fullscreen = true ∧
    (setupEventListeners.dblclick standardOnly
      (setupEventListeners.dblclick standardOnly windowed).display).display.fullscreen = false :=
  ⟨(dblclick_toggles_with_fullscreenElement standardOnly [] rfl rfl (Or.inl rfl)).2.1,
   (dblclick_toggles_with_fullscreenElement standardOnly [] rfl rfl (Or.inl rfl)).2.2.2⟩

/-- C9. Whichever of the four fullscreen methods are present or absent, the
double-click handler returns without throwing; and when both methods the handler
would use in the current state are absent (the request methods when
`document.fullscreenElement` is empty, the exit methods otherwise) it calls
nothing and leaves the display as it is. -/
theorem dblclick_never_throws (p : Platform) (d : Display) (hwf : p.wellFormed = true) :
    (setupEventListeners.dblclick p d).isReturned = true ∧
    (fullscreenElement p d = false → p.requestFullscreen = Method.absent →
      p.webkitRequestFullscreen = Method.absent →
      setupEventListeners.dblclick p d = Completion.returned d) ∧
    (fullscreenElement p d = true → p.exitFullscreen = Method.absent →
      p.webkitExitFullscreen = Method.absent →
      setupEventListeners.dblclick p d = Completion.returned d) := by
  obtain ⟨a, b, c, e, f⟩ := p
  simp only [Platform.wellFormed, Bool.and_eq_true] at hwf
  obtain ⟨⟨⟨ha, hb⟩, hc⟩, he⟩ := hwf
  refine ⟨?_, ?_, ?_⟩
  · unfold setupEventListeners.dblclick
    split
    · exact callEither_returns _ _ _ _ d ha hb
    · exact callEither_returns _ _ _ _ d hc he
  · intro h h1 h2
    simp only at h1 h2
    subst h1 h2
    simp [setupEventListeners.dblclick, h, callEither]
  · intro h h1 h2
    simp only at h1 h2
    subst h1 h2
    simp [setupEventListeners.dblclick, h, callEither]

/-- A double-click on a platform with no fullscreen method at all. -/
theorem dblclick_never_throws_witness :
    (setupEventListeners.dblclick ⟨Method.absent, Method.absent, Method.absent, Method.absent,
        false⟩ windowed).isReturned = true ∧
    setupEventListeners.dblclick ⟨Method.absent, Method.absent, Method.absent, Method.absent,
        false⟩ windowed = Completion.returned windowed :=
  ⟨(dblclick_never_throws ⟨Method.absent, Method.absent, Method.absent, Method.absent, false⟩
      windowed rfl).1,
   (dblclick_never_throws ⟨Method.absent, Method.absent, Method.absent, Method.absent, false⟩
      windowed rfl).2.1 rfl rfl rfl⟩

/-- C10 (counterexample). An interaction with no value change, ended by a
commit, runs no rebuild: on the scene as `createMesh` leaves it, the commit
alone changes nothing, and the number of geometry builds stays 1 where the claim
asks for one more. -/
theorem commit_alone_rebuilds_nothing :
    panelRun createMesh (([] : List Nat).map PanelEvent.change ++ [PanelEvent.commit])
      = createMesh ∧
    builds (panelRun createMesh (([] : List Nat).map PanelEvent.change ++ [PanelEvent.commit]))
      = 1 ∧
    builds (panelRun createMesh (([] : List Nat).map PanelEvent.change ++ [PanelEvent.commit]))
      ≠ builds createMesh + 1 := by
  have h : panelRun createMesh (([] : List Nat).map PanelEvent.change ++ [PanelEvent.commit])
      = createMesh := rfl
  rw [h]
  refine ⟨rfl, ?_, ?_⟩ <;> simp [builds, createMesh]

/-- C10 (amended). For the `subdivision` control of the debug panel: any number
of intermediate value changes runs no geometry operation; when at least one of
them moves the control off the value it had at the start, the same changes
followed by one commit run the rebuild exactly once, one `dispose()` of the
geometry in place and one `new THREE.BoxGeometry` built from the last value set;
and a commit that follows no value change runs nothing. -/
theorem commit_rebuilds_once (d : DebugScene) :
    (∀ values : List Nat,
      (panelRun d (values.map PanelEvent.change)).calls = d.calls ∧
      builds (panelRun d (values.map PanelEvent.change)) = builds d) ∧
    (∀ values : List Nat,
      (∃ v ∈ values, subdivisionController.clamp v ≠ d.subdivision) →
      (panelRun d (values.map PanelEvent.change ++ [PanelEvent.commit])).calls =
        d.calls ++ [GeometryCall.dispose d.geometry,
          GeometryCall.create
            ⟨(values.getLast?.map subdivisionController.clamp).getD d.subdivision,
             (values.getLast?.map subdivisionController.clamp).getD d.subdivision,
             (values.getLast?.map subdivisionController.clamp).getD d.subdivision⟩] ∧
      builds (panelRun d (values.map PanelEvent.change ++ [PanelEvent.commit])) = builds d + 1 ∧
      disposals (panelRun d (values.map PanelEvent.change ++ [PanelEvent.commit])) =
        disposals d + 1) ∧
    panelRun d [PanelEvent.commit] = d := by
  refine ⟨?_, ?_, rfl⟩
  · intro values
    obtain ⟨h1, _, _, _⟩ := panelFold_changes values { scene := d, changed := false }
    have hc : (panelRun d (values.map PanelEvent.change)).calls = d.calls := h1
    exact ⟨hc, by simp only [builds, hc]⟩
  · intro values hmove
    obtain ⟨h1, h2, h3, h4⟩ := panelFold_changes values { scene := d, changed := false }
    have hflag := h4 (Or.inr hmove)
    have hc : (panelRun d (values.map PanelEvent.change ++ [PanelEvent.commit])).calls =
        d.calls ++ [GeometryCall.dispose d.geometry,
          GeometryCall.create
            ⟨(values.getLast?.map subdivisionController.clamp).getD d.subdivision,
             (values.getLast?.map subdivisionController.clamp).getD d.subdivision,
             (values.getLast?.map subdivisionController.clamp).getD d.subdivision⟩] := by
      have hrun : panelRun d (values.map PanelEvent.change ++ [PanelEvent.commit]) =
          (panelStep subdivisionController
            (panelFold { scene := d, changed := false } (values.map PanelEvent.change))
            PanelEvent.commit).scene := by
        rw [panelRun, panelFold_append]
        rfl
      rw [hrun, panelStep_commit_changed _ hflag, onFinishChange_calls, h1, h2, h3]
    refine ⟨hc, ?_, ?_⟩
    · simp only [builds, hc, List.countP_append]
      simp [List.countP_cons]
    · simp only [disposals, hc, List.countP_append]
      simp [List.countP_cons]

/-- Fifty intermediate values, 0 to 49, on the scene as `createMesh` leaves it,
then one commit: one more geometry is built. -/
theorem commit_rebuilds_once_witness :
    builds (panelRun createMesh ((List.range 50).map PanelEvent.change ++ [PanelEvent.commit]))
      = builds createMesh + 1 :=
  ((commit_rebuilds_once createMesh).2.1 (List.range 50)
    ⟨5, by simp, by decide⟩).2.1

/-! ## Pixel ratio -/

/-- The tick never calls `setPixelRatio`. -/
theorem runOps_log_setPixelRatio (throws : Op → Bool) (ops : List Op) (s : State) (r : ℚ)
    (h : Call.setPixelRatio r ∈ (runOps throws ops s).log) : Call.setPixelRatio r ∈ s.log := by
  obtain ⟨n, hn⟩ := runOps_initial_segment throws ops s
  rw [hn] at h
  simp only [List.mem_append, List.mem_map] at h
  rcases h with (h | ⟨op, _, hop⟩) | ⟨op, _, hop⟩
  · exact h
  · cases op <;> simp [callOf] at hop
  · cases hop

theorem setup_log_setPixelRatio (sc : SceneId) (w : Window) (r : ℚ)
    (h : Call.setPixelRatio r ∈ (setup sc w).log) : r = min w.devicePixelRatio 2 := by
  cases sc <;>
    simp [setup, rendererSetup, createRenderer, TransformObjects.createRenderer, setSize,
      setPixelRatio] at h <;>
    exact h

theorem setup_pixelRatio_le (sc : SceneId) (w : Window) :
    (setup sc w).renderer.pixelRatio ≤ 2 := by
  cases sc <;>
    simp [setup, rendererSetup, createRenderer, TransformObjects.createRenderer, setSize,
      setPixelRatio]

theorem step_pixelRatio_le (sc : SceneId) (s : State) (e : Event)
    (h : s.renderer.pixelRatio ≤ 2) : (step sc s e).renderer.pixelRatio ≤ 2 := by
  cases e with
  | resize w =>
    simp only [step]
    rw [resizeEvent_pixelRatio]
    split
    · exact h
    · exact min_le_right _ _
  | frame throws =>
    obtain ⟨_, _, _, h4⟩ := dispatchFrame_frame sc throws s
    simp only [step, h4]
    exact h

theorem run_pixelRatio_le (sc : SceneId) (evs : List Event) (s : State)
    (h : s.renderer.pixelRatio ≤ 2) : (run sc s evs).renderer.pixelRatio ≤ 2 := by
  induction evs generalizing s with
  | nil => simpa [run] using h
  | cons e rest ih =>
    have := ih (step sc s e) (step_pixelRatio_le sc s e h)
    simpa [run] using this

/-! ## Geometry lemmas -/

theorem live_append (xs ys : List GeometryCall) :
    live (xs ++ ys) = ys.foldl (fun acc c => match c with
      | GeometryCall.create g => acc ++ [g]
      | GeometryCall.dispose g => acc.erase g) (live xs) := by
  simp [live, List.foldl_append]

/-- The mesh geometry is the one live geometry, and events keep it so. -/
theorem panelStep_live (p : PanelState) (e : PanelEvent)
    (h : live p.scene.calls = [p.scene.geometry]) :
    live (panelStep subdivisionController p e).scene.calls =
      [(panelStep subdivisionController p e).scene.geometry] := by
  cases e with
  | change v =>
    obtain ⟨e1, e2, _⟩ := panelStep_change p v
    rw [e1, e2]
    exact h
  | commit =>
    by_cases hc : p.changed = true
    · have hstep : (panelStep subdivisionController p PanelEvent.commit).scene =
          setupDebugUI.onFinishChange p.scene := by
        simp only [panelStep, hc, if_true]
        rfl
      rw [hstep, onFinishChange_calls, live_append, h]
      simp [setupDebugUI.onFinishChange]
    · have hstep : panelStep subdivisionController p PanelEvent.commit = p := by
        simp only [panelStep, hc]
        rfl
      rw [hstep]
      exact h

/-- Builds exceed disposals by one, and events keep it so. -/
theorem panelStep_builds (p : PanelState) (e : PanelEvent)
    (h : builds p.scene = disposals p.scene + 1) :
    builds (panelStep subdivisionController p e).scene =
      disposals (panelStep subdivisionController p e).scene + 1 := by
  cases e with
  | change v =>
    obtain ⟨e1, _⟩ := panelStep_change p v
    simp only [builds, disposals, e1] at h ⊢
    exact h
  | commit =>
    by_cases hc : p.changed = true
    · have hstep : (panelStep subdivisionController p PanelEvent.commit).scene =
          setupDebugUI.onFinishChange p.scene := by
        simp only [panelStep, hc, if_true]
        rfl
      simp only [builds, disposals] at h ⊢
      rw [hstep, onFinishChange_calls]
      simp [List.countP_append, List.countP_cons, h]
    · have hstep : panelStep subdivisionController p PanelEvent.commit = p := by
        simp only [panelStep, hc]
        rfl
      rw [hstep]
      exact h

theorem panelFold_live (evs : List PanelEvent) (p : PanelState)
    (h : live p.scene.calls = [p.scene.geometry])
    (hb : builds p.scene = disposals p.scene + 1) :
    live (panelFold p evs).scene.calls = [(panelFold p evs).scene.geometry] ∧
    builds (panelFold p evs).scene = disposals (panelFold p evs).scene + 1 := by
  induction evs generalizing p with
  | nil => exact ⟨h, hb⟩
  | cons e rest ih =>
    have := ih (panelStep subdivisionController p e) (panelStep_live p e h)
      (panelStep_builds p e hb)
    simpa [panelFold] using this

/-! ## Claims, continued -/

/-- C13. Pressing the `h` key flips the hidden flag of the debug panel, so two
presses restore it; any other key leaves the whole state as it is; and no key
changes the mesh elevation, visibility, wireframe flag, colour or geometry. -/
theorem h_key_toggles_panel (u : DebugUi) :
    (setupDebugUI.keydown "h" u).gui.hidden = !u.gui.hidden ∧
    setupDebugUI.keydown "h" (setupDebugUI.keydown "h" u) = u ∧
    (∀ key : String, key ≠ "h" → setupDebugUI.keydown key u = u) ∧
    (∀ key : String,
      (setupDebugUI.keydown key u).positionY = u.positionY ∧
      (setupDebugUI.keydown key u).visible = u.visible ∧
      (setupDebugUI.keydown key u).wireframe = u.wireframe ∧
      (setupDebugUI.keydown key u).color = u.color ∧
      (setupDebugUI.keydown key u).scene = u.scene) := by
  refine ⟨by simp [setupDebugUI.keydown, Gui.showPanel], ?_, ?_, ?_⟩
  · obtain ⟨⟨hidden⟩, y, v, wf, c, sc⟩ := u
    simp [setupDebugUI.keydown, Gui.showPanel]
  · intro key hkey
    simp [setupDebugUI.keydown, hkey]
  · intro key
    by_cases hkey : key = "h" <;> simp [setupDebugUI.keydown, hkey]

/-- The `H` key (shift held) is not the `h` key: the panel stays as it is. -/
theorem h_key_toggles_panel_witness :
    setupDebugUI.keydown "H" ⟨⟨false⟩, 0, true, true, "#a778d8", createMesh⟩ =
      ⟨⟨false⟩, 0, true, true, "#a778d8", createMesh⟩ :=
  (h_key_toggles_panel ⟨⟨false⟩, 0, true, true, "#a778d8", createMesh⟩).2.2.1 "H" (by decide)

/-- C14. In every scene the renderer pixel ratio is at most 2 in every state
reached from `init` by resize events and frames, whatever the device pixel
ratio; every `setPixelRatio` call made by `init` or by a resize handler passes
`min(devicePixelRatio, 2)` for the device pixel ratio of the window at that
moment; a frame leaves the pixel ratio alone; and the clamp returns the device
pixel ratio itself when that is at most 2. -/
theorem pixel_ratio_clamped :
    (∀ (sc : SceneId) (throws : Op → Bool) (w : Window) (evs : List Event),
      (run sc (init sc throws w) evs).renderer.pixelRatio ≤ 2) ∧
    (∀ (sc : SceneId) (throws : Op → Bool) (w : Window) (r : ℚ),
      Call.setPixelRatio r ∈ (init sc throws w).log → r = min w.devicePixelRatio 2) ∧
    (∀ (sc : SceneId) (w : Window) (s : State) (r : ℚ),
      Call.setPixelRatio r ∈ (resizeEvent sc w s).log.drop s.log.length →
        r = min w.devicePixelRatio 2) ∧
    (∀ (sc : SceneId) (throws : Op → Bool) (s : State),
      (dispatchFrame sc throws s).renderer.pixelRatio = s.renderer.pixelRatio) ∧
    (∀ d : ℚ, min d 2 ≤ 2 ∧ (d ≤ 2 → min d 2 = d)) := by
  refine ⟨?_, ?_, ?_, ?_, ?_⟩
  · intro sc throws w evs
    apply run_pixelRatio_le
    obtain ⟨_, _, _, h4⟩ := runOps_frame throws (firstDraw sc) (setup sc w)
    unfold init
    rw [h4]
    exact setup_pixelRatio_le sc w
  · intro sc throws w r h
    exact setup_log_setPixelRatio sc w r (runOps_log_setPixelRatio throws _ _ r h)
  · intro sc w s r h
    rw [resizeEvent_log] at h
    simp only [List.drop_left] at h
    split at h <;> simp [fourSteps] at h
    exact h
  · intro sc throws s
    obtain ⟨_, _, _, h4⟩ := dispatchFrame_frame sc throws s
    rw [h4]
  · intro d
    exact ⟨min_le_right _ _, fun h => min_eq_left h⟩

/-- The shadows scene on a display of device pixel ratio 3: `init` sets the
pixel ratio to 2. -/
theorem pixel_ratio_clamped_witness :
    (init SceneId.shadows noThrow ⟨800, 600, 3⟩).renderer.pixelRatio ≤ 2 ∧
    (2 : ℚ) = min (3 : ℚ) 2 :=
  ⟨by simpa [run] using pixel_ratio_clamped.1 SceneId.shadows noThrow ⟨800, 600, 3⟩ [],
   pixel_ratio_clamped.2.1 SceneId.shadows noThrow ⟨800, 600, 3⟩ 2
    (by
      simp [init, setup, rendererSetup, createRenderer, firstDraw, tickBody, Shadows.tickBody,
        runOps, noThrow, exec, setPixelRatio, setSize, callOf]
      norm_num)⟩

/-- C17. In the debug-ui scene the mesh owns exactly one live geometry at all
times: `createMesh` builds it with `subdivision` 2 in all three directions, and
each commit of a changed `subdivision` disposes the geometry in place once, then
replaces it with a box whose three segment counts are the committed value; a
commit with no change pending touches nothing. -/
theorem mesh_owns_one_live_geometry :
    createMesh.subdivision = 2 ∧
    createMesh.geometry = ⟨2, 2, 2⟩ ∧
    createMesh.calls = [GeometryCall.create ⟨2, 2, 2⟩] ∧
    (∀ evs : List PanelEvent,
      live (panelRun createMesh evs).calls = [(panelRun createMesh evs).geometry] ∧
      builds (panelRun createMesh evs) = disposals (panelRun createMesh evs) + 1) ∧
    (∀ d : DebugScene,
      (panelStep subdivisionController ⟨d, true⟩ PanelEvent.commit).scene.calls =
        d.calls ++ [GeometryCall.dispose d.geometry,
          GeometryCall.create ⟨d.subdivision, d.subdivision, d.subdivision⟩] ∧
      (panelStep subdivisionController ⟨d, true⟩ PanelEvent.commit).scene.geometry =
        ⟨d.subdivision, d.subdivision, d.subdivision⟩ ∧
      (panelStep subdivisionController ⟨d, true⟩ PanelEvent.commit).scene.subdivision
        = d.subdivision ∧
      (panelStep subdivisionController ⟨d, true⟩ PanelEvent.commit).scene =
        setupDebugUI.onFinishChange d ∧
      (panelStep subdivisionController ⟨d, false⟩ PanelEvent.commit).scene = d) := by
  refine ⟨rfl, rfl, rfl, ?_, ?_⟩
  · intro evs
    exact panelFold_live evs ⟨createMesh, false⟩ (by simp [live, createMesh])
      (by simp [builds, disposals, createMesh])
  · intro d
    have hstep : (panelStep subdivisionController ⟨d, true⟩ PanelEvent.commit).scene =
        setupDebugUI.onFinishChange d := rfl
    rw [hstep]
    refine ⟨onFinishChange_calls d, ?_, ?_, rfl, rfl⟩ <;>
      simp [setupDebugUI.onFinishChange]

/-! ## Resource completion lemmas -/

theorem consoleLog_scene (line : String) (w : World) :
    (consoleLog line w).scene = w.scene ∧ (consoleLog line w).randomCalls = w.randomCalls :=
  ⟨rfl, rfl⟩

theorem createDonut_scene (random : Nat → ℚ) (w : World) :
    (createDonut random w).scene.children.length = w.scene.children.length + 1 ∧
    (createDonut random w).scene.children.take w.scene.children.length = w.scene.children ∧
    (createDonut random w).scene.background = w.scene.background ∧
    (createDonut random w).scene.environment = w.scene.environment := by
  simp [createDonut]

theorem iterate_createDonut_scene (random : Nat → ℚ) (n : Nat) (w : World) :
    ((createDonut random)^[n] w).scene.children.length = w.scene.children.length + n ∧
    ((createDonut random)^[n] w).scene.children.take w.scene.children.length
      = w.scene.children ∧
    ((createDonut random)^[n] w).scene.background = w.scene.background ∧
    ((createDonut random)^[n] w).scene.environment = w.scene.environment := by
  induction n generalizing w with
  | zero => simp
  | succ n ih =>
    obtain ⟨h1, h2, h3, h4⟩ := ih (createDonut random w)
    obtain ⟨e1, e2, e3, e4⟩ := createDonut_scene random w
    simp only [Function.iterate_succ, Function.comp_apply]
    refine ⟨by rw [h1, e1]; omega, ?_, by rw [h3, e3], by rw [h4, e4]⟩
    have hle : w.scene.children.length ≤ (createDonut random w).scene.children.length := by
      rw [e1]; omega
    rw [← e2]
    conv_rhs => rw [← h2]
    rw [List.take_take, min_eq_left hle, e2]

/-- What one application of the font completion does to the scene graph. -/
theorem loadText_onLoad_scene (random : Nat → ℚ) (font : String) (w : World) :
    (loadText.onLoad random font w).scene.children.length = w.scene.children.length + 101 ∧
    (loadText.onLoad random font w).scene.children.take w.scene.children.length
      = w.scene.children ∧
    (loadText.onLoad random font w).scene.background = w.scene.background ∧
    (loadText.onLoad random font w).scene.environment = w.scene.environment := by
  have hdef : loadText.onLoad random font w = (createDonut random)^[100]
      { w with scene := { w.scene with children := w.scene.children ++ [Node.text font] } } := by
    simp only [loadText.onLoad, createDonuts]
  obtain ⟨h1, h2, h3, h4⟩ := iterate_createDonut_scene random 100
    { w with scene := { w.scene with children := w.scene.children ++ [Node.text font] } }
  rw [← hdef] at h1 h2 h3 h4
  simp only [List.length_append, List.length_singleton] at h1 h2
  refine ⟨h1, ?_, h3, h4⟩
  have := congrArg (List.take w.scene.children.length) h2
  simpa [List.take_take] using this

/-! ## Claims: resources -/

/-- C11. When a load fails, the scene graph stays as it was. The environment map
of materials and the font of text3D register no failure callback, and a plain
texture load neither: the failed load changes nothing at all. In textures the
failure callbacks of the load and of the loading manager only write to the
console: children, background and environment of the scene are unchanged. -/
theorem failed_load_keeps_scene (last : Bool) (w : World) :
    complete loadEnvironmentMap.request last LoadResult.failed w = w ∧
    (∀ random : Nat → ℚ, complete (loadText.request random) last LoadResult.failed w = w) ∧
    complete plainTexture last LoadResult.failed w = w ∧
    (complete loadTextures.colorTexture last LoadResult.failed w).scene = w.scene ∧
    (complete loadTextures.otherTexture last LoadResult.failed w).scene = w.scene ∧
    (complete loadTextures.colorTexture false LoadResult.failed w).console =
      w.console ++ ["Texture loading error", "Loading error", "Loading in progress"] := by
  refine ⟨?_, ?_, ?_, ?_, ?_, ?_⟩
  · cases last <;> rfl
  · intro random
    cases last <;> rfl
  · cases last <;> rfl
  · cases last <;> rfl
  · cases last <;> rfl
  · simp [complete, loadTextures.colorTexture, loadTextures.loadingManager, callIfGiven,
      consoleLog]

/-- C12 (counterexample). In text3D, on a scene that holds the camera only, the
font completion leaves 102 children when applied once and 203 when applied
twice with the same font: the second application changes the scene graph. -/
theorem font_completion_not_idempotent :
    (loadText.onLoad (fun _ => 1 / 2) "helvetiker"
      ⟨⟨[Node.object "camera"], none, none⟩, [], 0⟩).scene.children.length = 102 ∧
    (loadText.onLoad (fun _ => 1 / 2) "helvetiker"
      (loadText.onLoad (fun _ => 1 / 2) "helvetiker"
        ⟨⟨[Node.object "camera"], none, none⟩, [], 0⟩)).scene.children.length = 203 ∧
    loadText.onLoad (fun _ => 1 / 2) "helvetiker"
      (loadText.onLoad (fun _ => 1 / 2) "helvetiker"
        ⟨⟨[Node.object "camera"], none, none⟩, [], 0⟩) ≠
      loadText.onLoad (fun _ => 1 / 2) "helvetiker"
        ⟨⟨[Node.object "camera"], none, none⟩, [], 0⟩ := by
  have h1 := (loadText_onLoad_scene (fun _ => 1 / 2) "helvetiker"
    ⟨⟨[Node.object "camera"], none, none⟩, [], 0⟩).1
  have h2 := (loadText_onLoad_scene (fun _ => 1 / 2) "helvetiker"
    (loadText.onLoad (fun _ => 1 / 2) "helvetiker"
      ⟨⟨[Node.object "camera"], none, none⟩, [], 0⟩)).1
  rw [h1] at h2
  refine ⟨h1, h2, ?_⟩
  intro heq
  rw [heq, h1] at h2
  simp at h2

/-- C12 (amended). The environment-map completion of materials is idempotent: a
second application with the same map (as loaded, or as the first application
left it) leaves the world as after the first. The font completion of text3D is
additive: every application appends the text mesh and 100 donuts, 101 children,
after the children already there, and leaves background and environment alone. -/
theorem environment_completion_idempotent (environmentMap : EnvironmentMap) (w : World) :
    loadEnvironmentMap.onLoad environmentMap (loadEnvironmentMap.onLoad environmentMap w) =
      loadEnvironmentMap.onLoad environmentMap w ∧
    loadEnvironmentMap.onLoad
        { environmentMap with mapping := Mapping.equirectangularReflection }
        (loadEnvironmentMap.onLoad environmentMap w) =
      loadEnvironmentMap.onLoad environmentMap w ∧
    (∀ (last : Bool),
      complete loadEnvironmentMap.request last (LoadResult.loaded environmentMap)
          (complete loadEnvironmentMap.request last (LoadResult.loaded environmentMap) w) =
        complete loadEnvironmentMap.request last (LoadResult.loaded environmentMap) w) ∧
    (∀ (random : Nat → ℚ) (font : String),
      (loadText.onLoad random font w).scene.children.length = w.scene.children.length + 101 ∧
      (loadText.onLoad random font w).scene.children.take w.scene.children.length
        = w.scene.children ∧
      (loadText.onLoad random font w).scene.background = w.scene.background ∧
      (loadText.onLoad random font w).scene.environment = w.scene.environment) := by
  refine ⟨rfl, rfl, ?_, fun random font => loadText_onLoad_scene random font w⟩
  intro last
  cases last <;> rfl

/-! ## Claims: animation values and cursor -/

/-- C18 (counterexample). At the elapsed time 0.016, with the doubles that
`Math.sin` and `Math.cos` return there, the sphere is not on the circle of
radius 1.5: `x^2 + z^2` differs from `1.5^2` (it is smaller). -/
theorem sphere_off_circle_at_16ms :
    (Shadows.tickWrites sinDouble cosDouble elapsed16ms
        ⟨⟨0, 0, 0⟩, ⟨0, -49 / 100, 0⟩, 1⟩).sphere.x ^ 2 +
      (Shadows.tickWrites sinDouble cosDouble elapsed16ms
        ⟨⟨0, 0, 0⟩, ⟨0, -49 / 100, 0⟩, 1⟩).sphere.z ^ 2 ≠ (3 / 2) ^ 2 ∧
    (Shadows.tickWrites sinDouble cosDouble elapsed16ms
        ⟨⟨0, 0, 0⟩, ⟨0, -49 / 100, 0⟩, 1⟩).sphere.x ^ 2 +
      (Shadows.tickWrites sinDouble cosDouble elapsed16ms
        ⟨⟨0, 0, 0⟩, ⟨0, -49 / 100, 0⟩, 1⟩).sphere.z ^ 2 < (3 / 2) ^ 2 := by
  have hx : (Shadows.tickWrites sinDouble cosDouble elapsed16ms
      ⟨⟨0, 0, 0⟩, ⟨0, -49 / 100, 0⟩, 1⟩).sphere.x =
        4503023178915917 / 4503599627370496 * (3 / 2) := by
    simp [Shadows.tickWrites, cosDouble]
  have hz : (Shadows.tickWrites sinDouble cosDouble elapsed16ms
      ⟨⟨0, 0, 0⟩, ⟨0, -49 / 100, 0⟩, 1⟩).sphere.z =
        4611489255675849 / 288230376151711744 * (3 / 2) := by
    simp [Shadows.tickWrites, sinDouble]
  rw [hx, hz]
  constructor <;> norm_num

/-- C18 (amended). In the shadows scene, after the writes of a tick at elapsed
time `t`, whatever the objects were before: the shadow has the x and z of the
sphere; the sphere has `x = cos(t) * 1.5` and `z = sin(t) * 1.5`, so that
`x^2 + z^2` is `1.5^2 * (sin^2 + cos^2)`, which is `1.5^2` where the values of
sine and cosine satisfy `sin^2 + cos^2 = 1`; its height is `|sin(3t)|`, between
0 and 1; and the shadow opacity is `(1 - y) * 0.3`, between 0 and 0.3, and equal
to 0.3 exactly when the sphere is on the ground (y = 0). Sine and cosine are any
functions with values between -1 and 1. -/
theorem shadow_follows_sphere {K : Type} [LinearOrderedField K] (sin cos : K → K)
    (t : K) (objects : ShadowObjects K) (hsin : ∀ a : K, |sin a| ≤ 1) :
    (Shadows.tickWrites sin cos t objects).sphereShadow.x =
      (Shadows.tickWrites sin cos t objects).sphere.x ∧
    (Shadows.tickWrites sin cos t objects).sphereShadow.z =
      (Shadows.tickWrites sin cos t objects).sphere.z ∧
    (Shadows.tickWrites sin cos t objects).sphereShadow.y = objects.sphereShadow.y ∧
    (Shadows.tickWrites sin cos t objects).sphere.x = cos t * (3 / 2) ∧
    (Shadows.tickWrites sin cos t objects).sphere.z = sin t * (3 / 2) ∧
    (Shadows.tickWrites sin cos t objects).sphere.x ^ 2 +
      (Shadows.tickWrites sin cos t objects).sphere.z ^ 2 =
        (3 / 2) ^ 2 * (sin t ^ 2 + cos t ^ 2) ∧
    (sin t ^ 2 + cos t ^ 2 = 1 →
      (Shadows.tickWrites sin cos t objects).sphere.x ^ 2 +
        (Shadows.tickWrites sin cos t objects).sphere.z ^ 2 = (3 / 2) ^ 2) ∧
    (Shadows.tickWrites sin cos t objects).sphere.y = |sin (3 * t)| ∧
    0 ≤ (Shadows.tickWrites sin cos t objects).sphere.y ∧
    (Shadows.tickWrites sin cos t objects).sphere.y ≤ 1 ∧
    (Shadows.tickWrites sin cos t objects).shadowOpacity =
      (1 - (Shadows.tickWrites sin cos t objects).sphere.y) * (3 / 10) ∧
    0 ≤ (Shadows.tickWrites sin cos t objects).shadowOpacity ∧
    (Shadows.tickWrites sin cos t objects).shadowOpacity ≤ 3 / 10 ∧
    ((Shadows.tickWrites sin cos t objects).shadowOpacity = 3 / 10 ↔
      (Shadows.tickWrites sin cos t objects).sphere.y = 0) := by
  have habs : |sin (t * 3)| ≤ 1 := hsin (t * 3)
  have hnonneg : 0 ≤ |sin (t * 3)| := abs_nonneg _
  simp only [Shadows.tickWrites]
  refine ⟨trivial, trivial, trivial, trivial, trivial, by ring, ?_, ?_, hnonneg, habs, trivial,
    ?_, ?_, ?_⟩
  · intro h
    linear_combination (9 / 4 : K) * h
  · rw [mul_comm]
  · nlinarith
  · nlinarith
  · constructor
    · intro h
      linarith
    · intro h
      rw [h]
      ring

/-- The shadows scene at elapsed time 0, with the real sine and cosine. -/
theorem shadow_follows_sphere_witness :
    (Shadows.tickWrites Real.sin Real.cos 0 ⟨⟨0, 0, 0⟩, ⟨0, -49 / 100, 0⟩, 1⟩).sphere.x ^ 2 +
      (Shadows.tickWrites Real.sin Real.cos 0 ⟨⟨0, 0, 0⟩, ⟨0, -49 / 100, 0⟩, 1⟩).sphere.z ^ 2
        = (3 / 2) ^ 2 ∧
    (Shadows.tickWrites Real.sin Real.cos 0 ⟨⟨0, 0, 0⟩, ⟨0, -49 / 100, 0⟩, 1⟩).shadowOpacity
      ≤ 3 / 10 :=
  ⟨(shadow_follows_sphere Real.sin Real.cos 0 ⟨⟨0, 0, 0⟩, ⟨0, -49 / 100, 0⟩, 1⟩
      Real.abs_sin_le_one).2.2.2.2.2.2.1 (Real.sin_sq_add_cos_sq 0),
   (shadow_follows_sphere Real.sin Real.cos 0 ⟨⟨0, 0, 0⟩, ⟨0, -49 / 100, 0⟩, 1⟩
      Real.abs_sin_le_one).2.2.2.2.2.2.2.2.2.2.2.2.1⟩

/-- C19. In lights and materials the rotation writes of a tick depend on the
elapsed time only. After the writes at elapsed time `t` every animated mesh has
`rotation.y = 0.1 t`, and `rotation.x = 0.15 t` in lights, `-0.15 t` in
materials, while `rotation.z` is left alone; the result is the same whatever the
rotations were before, so also after any earlier ticks at other times. -/
theorem rotation_is_function_of_time {K : Type} [LinearOrderedField K] (t : K)
    (objects : LightsObjects K) (meshes : List (Euler K)) :
    ((Lights.tickWrites t objects).sphere.y = 1 / 10 * t ∧
     (Lights.tickWrites t objects).cube.y = 1 / 10 * t ∧
     (Lights.tickWrites t objects).torus.y = 1 / 10 * t ∧
     (Lights.tickWrites t objects).sphere.x = 3 / 20 * t ∧
     (Lights.tickWrites t objects).cube.x = 3 / 20 * t ∧
     (Lights.tickWrites t objects).torus.x = 3 / 20 * t) ∧
    ((Lights.tickWrites t objects).sphere.z = objects.sphere.z ∧
     (Lights.tickWrites t objects).cube.z = objects.cube.z ∧
     (Lights.tickWrites t objects).torus.z = objects.torus.z) ∧
    (∀ earlier : List K,
      Lights.tickWrites t (earlier.foldl (fun o t0 => Lights.tickWrites t0 o) objects) =
        Lights.tickWrites t objects) ∧
    (Materials.tickWrites t meshes).map (fun mesh => (mesh.x, mesh.y, mesh.z)) =
      meshes.map (fun mesh => (-(3 / 20) * t, 1 / 10 * t, mesh.z)) ∧
    (∀ earlier : List K,
      Materials.tickWrites t (earlier.foldl (fun ms t0 => Materials.tickWrites t0 ms) meshes) =
        Materials.tickWrites t meshes) := by
  refine ⟨⟨rfl, rfl, rfl, rfl, rfl, rfl⟩, ⟨rfl, rfl, rfl⟩, ?_, ?_, ?_⟩
  · intro earlier
    induction earlier generalizing objects with
    | nil => rfl
    | cons t0 rest ih =>
      simp only [List.foldl_cons]
      rw [ih (Lights.tickWrites t0 objects)]
      rfl
  · simp [Materials.tickWrites, Function.comp_def]
  · intro earlier
    induction earlier generalizing meshes with
    | nil => rfl
    | cons t0 rest ih =>
      simp only [List.foldl_cons]
      rw [ih (Materials.tickWrites t0 meshes)]
      simp [Materials.tickWrites, Function.comp_def]

/-- C20. `onCursorMove` normalises the pointer against the `sizes` record it is
given, which after a resize is the new window size: `cursor.x` is
`clientX / width - 0.5` and `cursor.y` is `-(clientY / height - 0.5)`. For a
positive width and height and a pointer inside the window both coordinates are
between -0.5 and 0.5; the centre of the window maps to (0, 0); x grows with
`clientX`, y decreases as `clientY` grows, and the top edge gives y = 0.5. -/
theorem cursor_normalised {K : Type} [LinearOrderedField K] (clientX clientY : K)
    (cursor : Cursor K) (sizes : Sizes) (hw : 0 < sizes.width) (hh : 0 < sizes.height)
    (hx0 : 0 ≤ clientX) (hx1 : clientX ≤ (sizes.width : K))
    (hy0 : 0 ≤ clientY) (hy1 : clientY ≤ (sizes.height : K)) :
    (onCursorMove clientX clientY cursor sizes).x = clientX / (sizes.width : K) - 1 / 2 ∧
    (onCursorMove clientX clientY cursor sizes).y = -(clientY / (sizes.height : K) - 1 / 2) ∧
    (-(1 / 2) ≤ (onCursorMove clientX clientY cursor sizes).x ∧
      (onCursorMove clientX clientY cursor sizes).x ≤ 1 / 2) ∧
    (-(1 / 2) ≤ (onCursorMove clientX clientY cursor sizes).y ∧
      (onCursorMove clientX clientY cursor sizes).y ≤ 1 / 2) ∧
    ((onCursorMove ((sizes.width : K) / 2) ((sizes.height : K) / 2) cursor sizes).x = 0 ∧
      (onCursorMove ((sizes.width : K) / 2) ((sizes.height : K) / 2) cursor sizes).y = 0) ∧
    (∀ right : K, clientX < right →
      (onCursorMove clientX clientY cursor sizes).x < (onCursorMove right clientY cursor sizes).x) ∧
    (∀ below : K, clientY < below →
      (onCursorMove clientX below cursor sizes).y < (onCursorMove clientX clientY cursor sizes).y) ∧
    (onCursorMove clientX 0 cursor sizes).y = 1 / 2 ∧
    (∀ (w : Window) (s : State),
      Cameras.mousemove clientX clientY cursor (resizeEvent SceneId.cameras w s) =
        onCursorMove clientX clientY cursor ⟨w.innerWidth, w.innerHeight⟩) := by
  have hwK : (0 : K) < (sizes.width : K) := by exact_mod_cast hw
  have hhK : (0 : K) < (sizes.height : K) := by exact_mod_cast hh
  have hxq0 : 0 ≤ clientX / (sizes.width : K) := div_nonneg hx0 hwK.le
  have hxq1 : clientX / (sizes.width : K) ≤ 1 := (div_le_one hwK).mpr hx1
  have hyq0 : 0 ≤ clientY / (sizes.height : K) := div_nonneg hy0 hhK.le
  have hyq1 : clientY / (sizes.height : K) ≤ 1 := (div_le_one hhK).mpr hy1
  simp only [onCursorMove]
  refine ⟨trivial, trivial, ⟨by linarith, by linarith⟩, ⟨by linarith, by linarith⟩, ⟨?_, ?_⟩,
    ?_, ?_, by simp, ?_⟩
  · field_simp
    ring
  · field_simp
    ring
  · intro right hlt
    have := div_lt_div_of_pos_right hlt hwK
    linarith
  · intro below hlt
    have := div_lt_div_of_pos_right hlt hhK
    linarith
  · intro w s
    obtain ⟨_, h2, _⟩ := resizeEvent_viewport SceneId.cameras w s
    simp only [Cameras.mousemove, onCursorMove, h2]

/-- The pointer at (200, 150) in an 800 x 600 window. -/
theorem cursor_normalised_witness :
    (onCursorMove (200 : ℚ) 150 ⟨0, 0⟩ ⟨800, 600⟩).x = 200 / (800 : ℕ) - 1 / 2 ∧
    -(1 / 2) ≤ (onCursorMove (200 : ℚ) 150 ⟨0, 0⟩ ⟨800, 600⟩).x :=
  ⟨(cursor_normalised (200 : ℚ) 150 ⟨0, 0⟩ ⟨800, 600⟩ (by decide) (by decide) (by norm_num)
      (by norm_num) (by norm_num) (by norm_num)).1,
   (cursor_normalised (200 : ℚ) 150 ⟨0, 0⟩ ⟨800, 600⟩ (by decide) (by decide) (by norm_num)
      (by norm_num) (by norm_num) (by norm_num)).2.2.1.1⟩

/-! ## Orbit controller lemmas -/

theorem clampTo_of_mem {K : Type} [LinearOrderedField K] {lo hi x : K} (h1 : lo ≤ x)
    (h2 : x ≤ hi) : clampTo lo hi x = x := by
  unfold clampTo
  rw [min_eq_right h2, max_eq_right h1]

/-- Within the bounds the polar clamp of `update` is the identity: the damped
step is a point between the committed and the target angle. -/
theorem update_polar {K : Type} [LinearOrderedField K] (s : OrbitState K)
    (hd0 : 0 ≤ s.damping) (hd1 : s.damping ≤ 1) (h : s.InRange) :
    s.update.polar = s.polar + s.damping * (s.targetPolar - s.polar) := by
  obtain ⟨h1, h2, h3, h4⟩ := h
  have hc : s.polar + s.damping * (s.targetPolar - s.polar) =
      (1 - s.damping) * s.polar + s.damping * s.targetPolar := by ring
  have hd : 0 ≤ 1 - s.damping := by linarith
  apply clampTo_of_mem
  · rw [hc]
    nlinarith [mul_le_mul_of_nonneg_left h1 hd, mul_le_mul_of_nonneg_left h3 hd0]
  · rw [hc]
    nlinarith [mul_le_mul_of_nonneg_left h2 hd, mul_le_mul_of_nonneg_left h4 hd0]

theorem update_inRange {K : Type} [LinearOrderedField K] (s : OrbitState K)
    (hd0 : 0 ≤ s.damping) (hd1 : s.damping ≤ 1) (h : s.InRange) : s.update.InRange := by
  have hp := update_polar s hd0 hd1 h
  obtain ⟨h1, h2, h3, h4⟩ := h
  have hc : s.polar + s.damping * (s.targetPolar - s.polar) =
      (1 - s.damping) * s.polar + s.damping * s.targetPolar := by ring
  have hd : 0 ≤ 1 - s.damping := by linarith
  refine ⟨?_, ?_, h3, h4⟩
  · show s.polarMin ≤ s.update.polar
    rw [hp, hc]
    nlinarith [mul_le_mul_of_nonneg_left h1 hd, mul_le_mul_of_nonneg_left h3 hd0]
  · show s.update.polar ≤ s.polarMax
    rw [hp, hc]
    nlinarith [mul_le_mul_of_nonneg_left h2 hd, mul_le_mul_of_nonneg_left h4 hd0]

/-- After `n` updates with no input the distance to each target angle is
`(1 - damping)^n` times the distance at the start. -/
theorem iterate_update_gap {K : Type} [LinearOrderedField K] (n : Nat) (s : OrbitState K)
    (hd0 : 0 ≤ s.damping) (hd1 : s.damping ≤ 1) (h : s.InRange) :
    (OrbitState.update^[n] s).targetAzimuth = s.targetAzimuth ∧
    (OrbitState.update^[n] s).targetPolar = s.targetPolar ∧
    (OrbitState.update^[n] s).damping = s.damping ∧
    (OrbitState.update^[n] s).targetAzimuth - (OrbitState.update^[n] s).azimuth =
      (1 - s.damping) ^ n * (s.targetAzimuth - s.azimuth) ∧
    (OrbitState.update^[n] s).targetPolar - (OrbitState.update^[n] s).polar =
      (1 - s.damping) ^ n * (s.targetPolar - s.polar) := by
  induction n generalizing s with
  | zero => simp
  | succ n ih =>
    have hu : s.update.damping = s.damping := rfl
    obtain ⟨h1, h2, h3, h4, h5⟩ := ih s.update (by rw [hu]; exact hd0) (by rw [hu]; exact hd1)
      (update_inRange s hd0 hd1 h)
    simp only [Function.iterate_succ, Function.comp_apply]
    refine ⟨h1, h2, h3, ?_, ?_⟩
    · rw [h4, hu]
      show (1 - s.damping) ^ n *
        (s.targetAzimuth - (s.azimuth + s.damping * (s.targetAzimuth - s.azimuth))) = _
      ring
    · rw [h5, hu]
      have htp : s.update.targetPolar = s.targetPolar := rfl
      rw [htp, update_polar s hd0 hd1 h]
      ring

/-! ## Claims: orbit controller -/

/-- C15. With damping `d` strictly between 0 and 1 and the polar angles within
their bounds, one `update` with no new input leaves the targets alone and moves
each committed angle to `d` of the way to its target: when the committed angle
differs from the target, the distance to the target strictly decreases and the
committed angle stays strictly on its side of the target. In the scenes with
controls, the tick calls the controller update exactly once. -/
theorem orbit_update_converges {K : Type} [LinearOrderedField K] (s : OrbitState K)
    (hd0 : 0 < s.damping) (hd1 : s.damping < 1) (h : s.InRange) :
    (s.update.targetAzimuth = s.targetAzimuth ∧ s.update.targetPolar = s.targetPolar) ∧
    (s.targetAzimuth - s.update.azimuth = (1 - s.damping) * (s.targetAzimuth - s.azimuth) ∧
      s.targetPolar - s.update.polar = (1 - s.damping) * (s.targetPolar - s.polar)) ∧
    (s.azimuth ≠ s.targetAzimuth →
      |s.targetAzimuth - s.update.azimuth| < |s.targetAzimuth - s.azimuth| ∧
      0 < (s.targetAzimuth - s.update.azimuth) * (s.targetAzimuth - s.azimuth)) ∧
    (s.polar ≠ s.targetPolar →
      |s.targetPolar - s.update.polar| < |s.targetPolar - s.polar| ∧
      0 < (s.targetPolar - s.update.polar) * (s.targetPolar - s.polar)) ∧
    s.update.InRange ∧
    (∀ sc : SceneId, sc.hasControls = true → (tickBody sc).count Op.controlsUpdate = 1) := by
  have hgapA : s.targetAzimuth - s.update.azimuth =
      (1 - s.damping) * (s.targetAzimuth - s.azimuth) := by
    show s.targetAzimuth - (s.azimuth + s.damping * (s.targetAzimuth - s.azimuth)) = _
    ring
  have hgapP : s.targetPolar - s.update.polar =
      (1 - s.damping) * (s.targetPolar - s.polar) := by
    rw [update_polar s hd0.le hd1.le h]
    ring
  have hpos : 0 < 1 - s.damping := by linarith
  have hlt : 1 - s.damping < 1 := by linarith
  have key : ∀ g : K, g ≠ 0 → |(1 - s.damping) * g| < |g| ∧ 0 < (1 - s.damping) * g * g := by
    intro g hg
    have hgpos : 0 < |g| := abs_pos.mpr hg
    refine ⟨?_, ?_⟩
    · rw [abs_mul, abs_of_pos hpos]
      nlinarith
    · have : 0 < g * g := mul_self_pos.mpr hg
      nlinarith
  refine ⟨⟨rfl, rfl⟩, ⟨hgapA, hgapP⟩, ?_, ?_, update_inRange s hd0.le hd1.le h, ?_⟩
  · intro hne
    rw [hgapA]
    exact key _ (sub_ne_zero.mpr (Ne.symm hne))
  · intro hne
    rw [hgapP]
    exact key _ (sub_ne_zero.mpr (Ne.symm hne))
  · intro sc hsc
    cases sc <;>
      simp [SceneId.hasControls] at hsc <;>
      simp [tickBody, Controls.tickBody, Lights.tickBody, Materials.tickBody, Materials.meshes,
        Shadows.tickBody, List.count_cons]

/-- The drag of the scenario on the controller at rest. -/
theorem orbitAtRest_drag :
    (orbitAtRest.drag (1 / 2) (1 / 10)).azimuth = 0 ∧
    (orbitAtRest.drag (1 / 2) (1 / 10)).polar = 1 ∧
    (orbitAtRest.drag (1 / 2) (1 / 10)).targetAzimuth = 1 / 2 ∧
    (orbitAtRest.drag (1 / 2) (1 / 10)).targetPolar = 11 / 10 ∧
    (orbitAtRest.drag (1 / 2) (1 / 10)).damping = 1 / 10 ∧
    (orbitAtRest.drag (1 / 2) (1 / 10)).InRange := by
  have hc : clampTo (1 / 100 : ℚ) (313 / 100) (1 + 1 / 10) = 11 / 10 := by
    rw [clampTo_of_mem] <;> norm_num
  refine ⟨rfl, rfl, ?_, ?_, rfl, ?_⟩
  · simp only [OrbitState.drag, orbitAtRest]
    norm_num
  · simp only [OrbitState.drag, orbitAtRest]
    exact hc
  · simp only [OrbitState.InRange, OrbitState.drag, orbitAtRest, hc]
    norm_num

/-- One update after the drag of the scenario, on the controller at rest: the
committed azimuth gets strictly closer to its target, and the polar angles stay
within their bounds. -/
theorem orbit_update_converges_witness :
    (orbitAtRest.drag (1 / 2) (1 / 10)).InRange ∧
    (orbitAtRest.drag (1 / 2) (1 / 10)).update.InRange ∧
    |(orbitAtRest.drag (1 / 2) (1 / 10)).targetAzimuth -
        (orbitAtRest.drag (1 / 2) (1 / 10)).update.azimuth| <
      |(orbitAtRest.drag (1 / 2) (1 / 10)).targetAzimuth -
        (orbitAtRest.drag (1 / 2) (1 / 10)).azimuth| :=
  have hd : (orbitAtRest.drag (1 / 2) (1 / 10)).damping = 1 / 10 := orbitAtRest_drag.2.2.2.2.1
  have hne : (orbitAtRest.drag (1 / 2) (1 / 10)).azimuth ≠
      (orbitAtRest.drag (1 / 2) (1 / 10)).targetAzimuth := by
    rw [orbitAtRest_drag.1, orbitAtRest_drag.2.2.1]
    norm_num
  ⟨orbitAtRest_drag.2.2.2.2.2,
   (orbit_update_converges (orbitAtRest.drag (1 / 2) (1 / 10)) (by rw [hd]; norm_num)
      (by rw [hd]; norm_num) orbitAtRest_drag.2.2.2.2.2).2.2.2.2.1,
   ((orbit_update_converges (orbitAtRest.drag (1 / 2) (1 / 10)) (by rw [hd]; norm_num)
      (by rw [hd]; norm_num) orbitAtRest_drag.2.2.2.2.2).2.2.1 hne).1⟩

/-- C16 (counterexample). On the controller at rest at azimuth 0 and polar angle
1, with damping 0.1, the drag (0.5, 0.1) sets the targets to 0.5 and 1.1. After
10 updates the committed azimuth is still 0.1743 short of 0.5 and the committed
polar angle 0.0349 short of 1.1: neither is within 1% of its target angle. -/
theorem ten_updates_not_within_one_percent :
    (OrbitState.update^[10] (orbitAtRest.drag (1 / 2) (1 / 10))).targetAzimuth = 1 / 2 ∧
    (OrbitState.update^[10] (orbitAtRest.drag (1 / 2) (1 / 10))).targetPolar = 11 / 10 ∧
    (OrbitState.update^[10] (orbitAtRest.drag (1 / 2) (1 / 10))).targetAzimuth -
      (OrbitState.update^[10] (orbitAtRest.drag (1 / 2) (1 / 10))).azimuth =
        3486784401 / 20000000000 ∧
    (OrbitState.update^[10] (orbitAtRest.drag (1 / 2) (1 / 10))).targetPolar -
      (OrbitState.update^[10] (orbitAtRest.drag (1 / 2) (1 / 10))).polar =
        3486784401 / 100000000000 ∧
    ¬ (|(OrbitState.update^[10] (orbitAtRest.drag (1 / 2) (1 / 10))).targetAzimuth -
        (OrbitState.update^[10] (orbitAtRest.drag (1 / 2) (1 / 10))).azimuth| ≤
      1 / 100 * |(OrbitState.update^[10] (orbitAtRest.drag (1 / 2) (1 / 10))).targetAzimuth|) ∧
    ¬ (|(OrbitState.update^[10] (orbitAtRest.drag (1 / 2) (1 / 10))).targetPolar -
        (OrbitState.update^[10] (orbitAtRest.drag (1 / 2) (1 / 10))).polar| ≤
      1 / 100 * |(OrbitState.update^[10] (orbitAtRest.drag (1 / 2) (1 / 10))).targetPolar|) := by
  obtain ⟨ha, hp, hta, htp, hd, hr⟩ := orbitAtRest_drag
  obtain ⟨h1, h2, _, h4, h5⟩ := iterate_update_gap 10 (orbitAtRest.drag (1 / 2) (1 / 10))
    (by rw [hd]; norm_num) (by rw [hd]; norm_num) hr
  rw [hta] at h1
  rw [htp] at h2
  rw [hd, hta, ha] at h4
  rw [hd, htp, hp] at h5
  have h4n : (OrbitState.update^[10] (orbitAtRest.drag (1 / 2) (1 / 10))).targetAzimuth -
      (OrbitState.update^[10] (orbitAtRest.drag (1 / 2) (1 / 10))).azimuth =
        3486784401 / 20000000000 := by
    rw [h4]; norm_num
  have h5n : (OrbitState.update^[10] (orbitAtRest.drag (1 / 2) (1 / 10))).targetPolar -
      (OrbitState.update^[10] (orbitAtRest.drag (1 / 2) (1 / 10))).polar =
        3486784401 / 100000000000 := by
    rw [h5]; norm_num
  refine ⟨h1, h2, h4n, h5n, ?_, ?_⟩
  · rw [h4n, h1]
    norm_num [abs_of_pos]
  · rw [h5n, h2]
    norm_num [abs_of_pos]

/-- C16 (amended). Starting from rest with the drag (0.5, 0.1) and damping 0.1,
after `n` updates with no further input the committed azimuth and polar angle
are `0.9^n` of the drag short of their targets. After 10 updates 34.9% of the
drag remains, 0.1743 and 0.0349: more than 1% of the drag, and more than 1% of
the target polar angle whenever the polar bounds lie between 0 and 3.15. The
remaining distance is within 1% of the drag after 44 updates, not after 43. -/
theorem damped_drag_remaining_distance {K : Type} [LinearOrderedField K] (s : OrbitState K)
    (hd : s.damping = 1 / 10) (hrestA : s.azimuth = s.targetAzimuth)
    (hrestP : s.polar = s.targetPolar) (hlo : s.polarMin ≤ s.polar)
    (hhi : s.polar + 1 / 10 ≤ s.polarMax) :
    (∀ n : Nat,
      (OrbitState.update^[n] (s.drag (1 / 2) (1 / 10))).targetAzimuth = s.azimuth + 1 / 2 ∧
      (OrbitState.update^[n] (s.drag (1 / 2) (1 / 10))).targetPolar = s.polar + 1 / 10 ∧
      (OrbitState.update^[n] (s.drag (1 / 2) (1 / 10))).targetAzimuth -
        (OrbitState.update^[n] (s.drag (1 / 2) (1 / 10))).azimuth = (9 / 10) ^ n * (1 / 2) ∧
      (OrbitState.update^[n] (s.drag (1 / 2) (1 / 10))).targetPolar -
        (OrbitState.update^[n] (s.drag (1 / 2) (1 / 10))).polar = (9 / 10) ^ n * (1 / 10)) ∧
    ((9 / 10 : K) ^ 10 * (1 / 2) = 3486784401 / 20000000000 ∧
      (9 / 10 : K) ^ 10 * (1 / 10) = 3486784401 / 100000000000) ∧
    ((1 / 100 : K) * (1 / 2) < (9 / 10) ^ 10 * (1 / 2) ∧
      (1 / 100 : K) * (1 / 10) < (9 / 10) ^ 10 * (1 / 10)) ∧
    (0 ≤ s.polarMin → s.polarMax ≤ 315 / 100 →
      1 / 100 * |(OrbitState.update^[10] (s.drag (1 / 2) (1 / 10))).targetPolar| <
        |(OrbitState.update^[10] (s.drag (1 / 2) (1 / 10))).targetPolar -
          (OrbitState.update^[10] (s.drag (1 / 2) (1 / 10))).polar|) ∧
    ((9 / 10 : K) ^ 44 < 1 / 100 ∧ (1 / 100 : K) < (9 / 10) ^ 43) := by
  have hclamp : clampTo s.polarMin s.polarMax (s.targetPolar + 1 / 10) = s.polar + 1 / 10 := by
    rw [← hrestP]
    exact clampTo_of_mem (by linarith) hhi
  have hdragA : (s.drag (1 / 2) (1 / 10)).targetAzimuth = s.azimuth + 1 / 2 := by
    simp only [OrbitState.drag]
    rw [hrestA]
  have hdragP : (s.drag (1 / 2) (1 / 10)).targetPolar = s.polar + 1 / 10 := by
    simp only [OrbitState.drag]
    exact hclamp
  have hdragD : (s.drag (1 / 2) (1 / 10)).damping = 1 / 10 := hd
  have hdraga : (s.drag (1 / 2) (1 / 10)).azimuth = s.azimuth := rfl
  have hdragp : (s.drag (1 / 2) (1 / 10)).polar = s.polar := rfl
  have hrange : (s.drag (1 / 2) (1 / 10)).InRange := by
    refine ⟨hlo, by show s.polar ≤ s.polarMax; linarith, ?_, ?_⟩
    · show s.polarMin ≤ (s.drag (1 / 2) (1 / 10)).targetPolar
      rw [hdragP]; linarith
    · show (s.drag (1 / 2) (1 / 10)).targetPolar ≤ s.polarMax
      rw [hdragP]; exact hhi
  have hgap : ∀ n : Nat,
      (OrbitState.update^[n] (s.drag (1 / 2) (1 / 10))).targetAzimuth = s.azimuth + 1 / 2 ∧
      (OrbitState.update^[n] (s.drag (1 / 2) (1 / 10))).targetPolar = s.polar + 1 / 10 ∧
      (OrbitState.update^[n] (s.drag (1 / 2) (1 / 10))).targetAzimuth -
        (OrbitState.update^[n] (s.drag (1 / 2) (1 / 10))).azimuth = (9 / 10) ^ n * (1 / 2) ∧
      (OrbitState.update^[n] (s.drag (1 / 2) (1 / 10))).targetPolar -
        (OrbitState.update^[n] (s.drag (1 / 2) (1 / 10))).polar = (9 / 10) ^ n * (1 / 10) := by
    intro n
    obtain ⟨h1, h2, _, h4, h5⟩ := iterate_update_gap n (s.drag (1 / 2) (1 / 10))
      (by rw [hdragD]; norm_num) (by rw [hdragD]; norm_num) hrange
    rw [hdragD, hdragA, hdraga] at h4
    rw [hdragD, hdragP, hdragp] at h5
    have e : (1 - 1 / 10 : K) = 9 / 10 := by norm_num
    rw [e] at h4 h5
    refine ⟨by rw [h1, hdragA], by rw [h2, hdragP], ?_, ?_⟩
    · rw [h4]; ring
    · rw [h5]; ring
  refine ⟨hgap, ⟨by norm_num, by norm_num⟩, ⟨by norm_num, by norm_num⟩, ?_, by norm_num,
    by norm_num⟩
  intro h0 hmax
  obtain ⟨_, hT, _, hG⟩ := hgap 10
  rw [hG, hT]
  have hpos : (0 : K) ≤ s.polar + 1 / 10 := by linarith
  rw [abs_of_nonneg hpos]
  have hg : (0 : K) < (9 / 10) ^ 10 * (1 / 10) := by norm_num
  rw [abs_of_pos hg]
  have hle : s.polar + 1 / 10 ≤ 315 / 100 := le_trans hhi hmax
  have hval : (9 / 10 : K) ^ 10 * (1 / 10) = 3486784401 / 100000000000 := by norm_num
  rw [hval]
  linarith

/-- The scenario on the controller at rest at azimuth 0 and polar angle 1: ten
updates leave 0.9^10 of the drag. -/
theorem damped_drag_remaining_distance_witness :
    (OrbitState.update^[10] (orbitAtRest.drag (1 / 2) (1 / 10))).targetAzimuth -
      (OrbitState.update^[10] (orbitAtRest.drag (1 / 2) (1 / 10))).azimuth =
        (9 / 10) ^ 10 * (1 / 2) :=
  ((damped_drag_remaining_distance orbitAtRest rfl rfl rfl (by norm_num [orbitAtRest])
    (by norm_num [orbitAtRest])).1 10).2.2.1

/-! ## Claims: shadow configuration and random mesh -/

/-- C21. `configureShadow` always sets `mapSize.width`, `mapSize.height`,
`camera.near` and `camera.far` to its arguments. With `size` left out or `null`
the planes `top`, `right`, `bottom` and `left` of the shadow camera stay as they
were; with a size given, `top` and `right` become the size and `bottom` and
`left` its negative. The other properties of the shadow and of its camera are
never written. -/
theorem configureShadow_writes {K : Type} [LinearOrderedField K] (shadow : LightShadow K)
    (width height near far size : K) :
    (∀ argument : SizeArgument K,
      (configureShadow shadow width height near far argument).mapSizeWidth = width ∧
      (configureShadow shadow width height near far argument).mapSizeHeight = height ∧
      (configureShadow shadow width height near far argument).camera.near = near ∧
      (configureShadow shadow width height near far argument).camera.far = far) ∧
    ((configureShadow shadow width height near far SizeArgument.omitted).camera.top =
        shadow.camera.top ∧
      (configureShadow shadow width height near far SizeArgument.omitted).camera.right =
        shadow.camera.right ∧
      (configureShadow shadow width height near far SizeArgument.omitted).camera.bottom =
        shadow.camera.bottom ∧
      (configureShadow shadow width height near far SizeArgument.omitted).camera.left =
        shadow.camera.left) ∧
    ((configureShadow shadow width height near far SizeArgument.null).camera.top =
        shadow.camera.top ∧
      (configureShadow shadow width height near far SizeArgument.null).camera.right =
        shadow.camera.right ∧
      (configureShadow shadow width height near far SizeArgument.null).camera.bottom =
        shadow.camera.bottom ∧
      (configureShadow shadow width height near far SizeArgument.null).camera.left =
        shadow.camera.left) ∧
    ((configureShadow shadow width height near far (SizeArgument.given size)).camera.top = size ∧
      (configureShadow shadow width height near far (SizeArgument.given size)).camera.right
        = size ∧
      (configureShadow shadow width height near far (SizeArgument.given size)).camera.bottom
        = -size ∧
      (configureShadow shadow width height near far (SizeArgument.given size)).camera.left
        = -size) ∧
    (∀ argument : SizeArgument K,
      (configureShadow shadow width height near far argument).camera.zoom = shadow.camera.zoom ∧
      (configureShadow shadow width height near far argument).bias = shadow.bias ∧
      (configureShadow shadow width height near far argument).normalBias = shadow.normalBias ∧
      (configureShadow shadow width height near far argument).radius = shadow.radius) := by
  refine ⟨?_, ⟨rfl, rfl, rfl, rfl⟩, ⟨rfl, rfl, rfl, rfl⟩, ⟨rfl, rfl, rfl, rfl⟩, ?_⟩
  · intro argument
    cases argument <;> exact ⟨rfl, rfl, rfl, rfl⟩
  · intro argument
    cases argument <;> exact ⟨rfl, rfl, rfl, rfl⟩

/-! ## Random mesh lemmas -/

/-- The loop after its first `k` turns: the first `k` entries hold the converted
random values, the rest is still zero. -/
theorem fill_invariant {K : Type} [LinearOrderedField K] (toFloat32 : K → K)
    (random : Nat → K) (calls n k : Nat) (hk : k ≤ n) :
    ((List.range k).foldl (createRandomMesh.assign toFloat32 random)
        { array := List.replicate n 0, writes := [], randomCalls := calls }).array =
      (List.range k).map (fun i => toFloat32 ((random (calls + i) - 1 / 2) * 4)) ++
        List.replicate (n - k) 0 ∧
    ((List.range k).foldl (createRandomMesh.assign toFloat32 random)
        { array := List.replicate n 0, writes := [], randomCalls := calls }).writes =
      List.range k ∧
    ((List.range k).foldl (createRandomMesh.assign toFloat32 random)
        { array := List.replicate n 0, writes := [], randomCalls := calls }).randomCalls =
      calls + k := by
  induction k with
  | zero => simp
  | succ k ih =>
    obtain ⟨h1, h2, h3⟩ := ih (by omega)
    rw [List.range_succ, List.foldl_append]
    simp only [List.foldl_cons, List.foldl_nil, createRandomMesh.assign]
    rw [h1, h2, h3]
    refine ⟨?_, rfl, by omega⟩
    have hlen : ((List.range k).map
        (fun i => toFloat32 ((random (calls + i) - 1 / 2) * 4))).length ≤ k := by simp
    have hsplit : n - k = (n - (k + 1)) + 1 := by omega
    rw [List.set_append_right k _ hlen, hsplit, List.replicate_succ]
    simp [List.range_succ]

/-- What the loop of `createRandomMesh` leaves behind. -/
theorem fill_result {K : Type} [LinearOrderedField K] (toFloat32 : K → K)
    (random : Nat → K) (calls count : Nat) :
    (createRandomMesh.fill toFloat32 random calls count).array =
      (List.range (count * 9)).map (fun i => toFloat32 ((random (calls + i) - 1 / 2) * 4)) ∧
    (createRandomMesh.fill toFloat32 random calls count).writes = List.range (count * 9) ∧
    (createRandomMesh.fill toFloat32 random calls count).randomCalls = calls + count * 9 := by
  have h9 : count * 3 * 3 = count * 9 := by omega
  obtain ⟨h1, h2, h3⟩ := fill_invariant toFloat32 random calls (count * 9) (count * 9) le_rfl
  simp only [createRandomMesh.fill, List.length_replicate, h9]
  refine ⟨?_, h2, h3⟩
  rw [h1]
  simp

/-- Rounding does not cross an integer above. -/
theorem roundHalfEven_le (q : ℚ) (n : ℤ) (h : q ≤ n) : roundHalfEven q ≤ n := by
  have hfl : (⌊q⌋ : ℚ) ≤ q := Int.floor_le q
  have hf : ⌊q⌋ ≤ n := by exact_mod_cast hfl.trans h
  unfold roundHalfEven
  split_ifs with h1 h2 h3
  · exact hf
  · have : (⌊q⌋ : ℚ) < n := by linarith
    have : ⌊q⌋ < n := by exact_mod_cast this
    omega
  · exact hf
  · have : (⌊q⌋ : ℚ) < n := by linarith
    have : ⌊q⌋ < n := by exact_mod_cast this
    omega

/-- Rounding does not cross an integer below. -/
theorem le_roundHalfEven (q : ℚ) (n : ℤ) (h : (n : ℚ) ≤ q) : n ≤ roundHalfEven q := by
  have hf : n ≤ ⌊q⌋ := Int.le_floor.mpr h
  unfold roundHalfEven
  split_ifs <;> omega

theorem float32Exponent_le_one (x : ℚ) (h : |x| ≤ 2) : float32Exponent x ≤ 1 := by
  unfold float32Exponent
  apply max_le _ (by norm_num)
  rcases eq_or_lt_of_le (abs_nonneg x) with h0 | hpos
  · rw [← h0, Int.log_of_right_le_zero 2 le_rfl]
    norm_num
  · have := Int.log_mono_right (b := 2) hpos h
    have h2 : Int.log 2 (2 : ℚ) = 1 := by
      have := Int.log_zpow (R := ℚ) (b := 2) (by norm_num) 1
      simpa using this
    rw [h2] at this
    exact this

/-- Single-precision rounding keeps a number between -2 and 2 there: both ends
are single-precision numbers. -/
theorem fround_bounds (x : ℚ) (h1 : -2 ≤ x) (h2 : x ≤ 2) : -2 ≤ fround x ∧ fround x ≤ 2 := by
  have habs : |x| ≤ 2 := abs_le.mpr ⟨h1, h2⟩
  have he := float32Exponent_le_one x habs
  obtain ⟨k, hk⟩ : ∃ k : ℕ, (24 : ℤ) - float32Exponent x = k :=
    ⟨(24 - float32Exponent x).toNat, by omega⟩
  have hq : (0 : ℚ) < 2 ^ (float32Exponent x - 23) := zpow_pos (by norm_num) _
  have hN : (2 : ℚ) / 2 ^ (float32Exponent x - 23) = ((2 ^ k : ℤ) : ℚ) := by
    have : float32Exponent x - 23 = 1 - (k : ℤ) := by omega
    rw [this, zpow_sub₀ (by norm_num : (2 : ℚ) ≠ 0)]
    simp
  have hK : (2 : ℚ) ^ k * 2 ^ (float32Exponent x - 23) = 2 := by
    have hN' : (2 : ℚ) / 2 ^ (float32Exponent x - 23) = (2 : ℚ) ^ k := by
      rw [hN]
      push_cast
      rfl
    rw [← hN']
    field_simp
  unfold fround
  constructor
  · have hle : ((-(2 ^ k) : ℤ) : ℚ) ≤ x / 2 ^ (float32Exponent x - 23) := by
      have : -2 / 2 ^ (float32Exponent x - 23) ≤ x / 2 ^ (float32Exponent x - 23) :=
        div_le_div_of_nonneg_right h1 hq.le
      rw [neg_div, hN] at this
      push_cast at this ⊢
      exact this
    have hr := le_roundHalfEven _ _ hle
    have hr' : ((-(2 ^ k) : ℤ) : ℚ) ≤ (roundHalfEven (x / 2 ^ (float32Exponent x - 23)) : ℚ) := by
      exact_mod_cast hr
    have := mul_le_mul_of_nonneg_right hr' hq.le
    have e : ((-(2 ^ k) : ℤ) : ℚ) * 2 ^ (float32Exponent x - 23) = -2 := by
      push_cast
      rw [neg_mul, hK]
    linarith
  · have hle : x / 2 ^ (float32Exponent x - 23) ≤ ((2 ^ k : ℤ) : ℚ) := by
      have : x / 2 ^ (float32Exponent x - 23) ≤ 2 / 2 ^ (float32Exponent x - 23) :=
        div_le_div_of_nonneg_right h2 hq.le
      rw [hN] at this
      exact this
    have hr := roundHalfEven_le _ _ hle
    have hr' : (roundHalfEven (x / 2 ^ (float32Exponent x - 23)) : ℚ) ≤ ((2 ^ k : ℤ) : ℚ) := by
      exact_mod_cast hr
    have := mul_le_mul_of_nonneg_right hr' hq.le
    have e : ((2 ^ k : ℤ) : ℚ) * 2 ^ (float32Exponent x - 23) = 2 := by
      push_cast
      exact hK
    linarith

/-- The double just below 2 that `(r - 0.5) * 4` gives for `r = 1 - 2^-53` is
stored as 2. -/
theorem fround_near_two : fround ((1 - 1 / 2 ^ 53 - 1 / 2) * 4) = 2 := by
  have hx : ((1 - 1 / 2 ^ 53 - 1 / 2) * 4 : ℚ) = 2 - 1 / 2 ^ 51 := by norm_num
  rw [hx]
  have hpos : (0 : ℚ) ≤ 2 - 1 / 2 ^ 51 := by norm_num
  have hlog : Int.log 2 |(2 - 1 / 2 ^ 51 : ℚ)| = 0 := by
    rw [abs_of_nonneg hpos, Int.log_of_one_le_right 2 (by norm_num)]
    have : ⌊(2 - 1 / 2 ^ 51 : ℚ)⌋₊ = 1 := by
      rw [Nat.floor_eq_iff hpos]
      constructor <;> norm_num
    rw [this]
    simp
  have he : float32Exponent (2 - 1 / 2 ^ 51) = 0 := by
    unfold float32Exponent
    rw [hlog]
    norm_num
  have hfloor : ⌊((2 - 1 / 2 ^ 51) / 2 ^ ((0 : ℤ) - 23) : ℚ)⌋ = 16777215 := by
    rw [Int.floor_eq_iff]
    constructor <;> norm_num
  have hr : roundHalfEven ((2 - 1 / 2 ^ 51) / 2 ^ ((0 : ℤ) - 23)) = 16777216 := by
    unfold roundHalfEven
    rw [hfloor]
    norm_num
  unfold fround
  rw [he, hr]
  norm_num

/-- C22 (counterexample). With `Math.random()` returning `1 - 2^-53`, a value
of [0, 1), `createRandomMesh(1)` stores 2 in all nine entries of the
`Float32Array`: the stored coordinate is not below 2, and it is not the value
`(r - 0.5) * 4` that was assigned. -/
theorem stored_coordinate_reaches_two :
    (0 ≤ (1 - 1 / 2 ^ 53 : ℚ) ∧ (1 - 1 / 2 ^ 53 : ℚ) < 1) ∧
    (createRandomMesh fround (fun _ => 1 - 1 / 2 ^ 53) 0 1).position.array
      = [2, 2, 2, 2, 2, 2, 2, 2, 2] ∧
    (createRandomMesh fround (fun _ => 1 - 1 / 2 ^ 53) 0 1).position.array[0]? = some 2 ∧
    ¬ ((2 : ℚ) < 2) ∧
    fround ((1 - 1 / 2 ^ 53 - 1 / 2) * 4) ≠ (1 - 1 / 2 ^ 53 - 1 / 2) * 4 := by
  have harr : (createRandomMesh fround (fun _ => 1 - 1 / 2 ^ 53) 0 1).position.array
      = [2, 2, 2, 2, 2, 2, 2, 2, 2] := by
    simp only [createRandomMesh, (fill_result fround (fun _ => 1 - 1 / 2 ^ 53) 0 1).1,
      fround_near_two]
    rfl
  refine ⟨⟨by norm_num, by norm_num⟩, harr, by rw [harr]; rfl, by norm_num, ?_⟩
  rw [fround_near_two]
  norm_num

/-- C22 (amended). For every count, `createRandomMesh(count)` builds a position
attribute of item size 3 over an array of exactly `count * 9` numbers. The loop
assigns the indices 0 to `count * 9 - 1` in order, each exactly once, with one
`Math.random()` call per entry. Entry `i` is the single-precision rounding of
`(r - 0.5) * 4` for the random value `r` of its call: with `r` in [0, 1) the
value assigned lies in [-2, 2) and the entry stored lies in [-2, 2]. -/
theorem random_mesh_positions (random : Nat → ℚ) (calls count : Nat)
    (hr : ∀ n : Nat, 0 ≤ random n ∧ random n < 1) :
    (∀ toFloat32 : ℚ → ℚ,
      (createRandomMesh toFloat32 random calls count).position.array.length = count * 9 ∧
      (createRandomMesh toFloat32 random calls count).position.itemSize = 3 ∧
      (createRandomMesh.fill toFloat32 random calls count).writes = List.range (count * 9) ∧
      (∀ i : Nat, (createRandomMesh.fill toFloat32 random calls count).writes.count i =
        if i < count * 9 then 1 else 0) ∧
      (createRandomMesh.fill toFloat32 random calls count).randomCalls = calls + count * 9 ∧
      (∀ i : Nat, i < count * 9 →
        (createRandomMesh toFloat32 random calls count).position.array[i]? =
          some (toFloat32 ((random (calls + i) - 1 / 2) * 4)))) ∧
    (∀ i : Nat, i < count * 9 →
      (createRandomMesh fround random calls count).position.array[i]? =
        some (fround ((random (calls + i) - 1 / 2) * 4)) ∧
      -2 ≤ (random (calls + i) - 1 / 2) * 4 ∧ (random (calls + i) - 1 / 2) * 4 < 2 ∧
      -2 ≤ fround ((random (calls + i) - 1 / 2) * 4) ∧
      fround ((random (calls + i) - 1 / 2) * 4) ≤ 2) ∧
    (∀ x ∈ (createRandomMesh fround random calls count).position.array, -2 ≤ x ∧ x ≤ 2) := by
  have hget : ∀ (toFloat32 : ℚ → ℚ) (i : Nat), i < count * 9 →
      (createRandomMesh toFloat32 random calls count).position.array[i]? =
        some (toFloat32 ((random (calls + i) - 1 / 2) * 4)) := by
    intro toFloat32 i hi
    simp only [createRandomMesh, (fill_result toFloat32 random calls count).1]
    simp [hi]
  have hbound : ∀ n : Nat, -2 ≤ (random n - 1 / 2) * 4 ∧ (random n - 1 / 2) * 4 < 2 := by
    intro n
    obtain ⟨h0, h1⟩ := hr n
    constructor <;> linarith
  have hstored : ∀ n : Nat, -2 ≤ fround ((random n - 1 / 2) * 4) ∧
      fround ((random n - 1 / 2) * 4) ≤ 2 := fun n =>
    fround_bounds _ (hbound n).1 (hbound n).2.le
  refine ⟨?_, ?_, ?_⟩
  · intro toFloat32
    obtain ⟨h1, h2, h3⟩ := fill_result toFloat32 random calls count
    refine ⟨by simp [createRandomMesh, h1], rfl, h2, ?_, h3, hget toFloat32⟩
    intro i
    rw [h2]
    split
    · exact List.count_eq_one_of_mem (List.nodup_range _) (List.mem_range.mpr ‹_›)
    · exact List.count_eq_zero_of_not_mem (fun h => ‹¬ i < count * 9› (List.mem_range.mp h))
  · intro i hi
    exact ⟨hget fround i hi, (hbound _).1, (hbound _).2, (hstored _).1, (hstored _).2⟩
  · intro x hx
    simp only [createRandomMesh, (fill_result fround random calls count).1, List.mem_map,
      List.mem_range] at hx
    obtain ⟨i, _, rfl⟩ := hx
    exact hstored _

/-- The mesh of the geometries scene, `createRandomMesh(50)`, with every random
value equal to 0.5: 450 numbers, item size 3. -/
theorem random_mesh_positions_witness :
    (createRandomMesh fround (fun _ => (1 / 2 : ℚ)) 0 50).position.array.length = 50 * 9 ∧
    (createRandomMesh fround (fun _ => (1 / 2 : ℚ)) 0 50).position.itemSize = 3 :=
  ⟨((random_mesh_positions (fun _ => (1 / 2 : ℚ)) 0 50 (fun _ => by norm_num)).1 fround).1,
   ((random_mesh_positions (fun _ => (1 / 2 : ℚ)) 0 50 (fun _ => by norm_num)).1 fround).2.1⟩

end ThreeJsLearning
